import Mathlib

/-!
Shallow embedding of the OpenColorIO core covered by the specification:
OpData parameter payloads (CDL, FixedFunction, Matrix, Range), the op
optimizer (OpOptimizers.cpp), and the GPU extraction stage
(GPUProcessor.cpp).  Doubles are modelled as rationals; C++ exceptions
are modelled with Except.  Definitions follow the C++ sources under
src/; parts of the repository that are only declared there (virtual Op
capabilities, lattice generation, partitioning) are modelled from the
specification and marked as such in their doc comments.
-/

namespace OCIO

/-- Helper: whether an Except value is a success. -/
def exceptOk {ε α : Type} : Except ε α → Bool
  | Except.ok _ => true
  | Except.error _ => false

/-! ## CDLOpData (src/OpenColorIO/ops/CDL/CDLOpData.cpp) -/

/-- Three per-channel CDL values (CDLOpData::ChannelParams). -/
structure ChannelParams where
  v0 : ℚ
  v1 : ℚ
  v2 : ℚ
deriving DecidableEq

/-- CDL styles (CDLOpData::Style). -/
inductive CDLStyle
  | CDL_V1_2_FWD
  | CDL_V1_2_REV
  | CDL_NO_CLAMP_FWD
  | CDL_NO_CLAMP_REV
deriving DecidableEq

/-- CDL parameter payload (class CDLOpData). -/
structure CDLOpData where
  style : CDLStyle
  slopeParams : ChannelParams
  offsetParams : ChannelParams
  powerParams : ChannelParams
  saturation : ℚ
deriving DecidableEq

/-- kOneParams constant of CDLOpData.cpp. -/
def kOneParams : ChannelParams := ⟨1, 1, 1⟩

/-- kZeroParams constant of CDLOpData.cpp. -/
def kZeroParams : ChannelParams := ⟨0, 0, 0⟩

instance : Inhabited CDLOpData :=
  ⟨⟨CDLStyle.CDL_V1_2_FWD, kOneParams, kZeroParams, kOneParams, 1⟩⟩

/-- validateGreaterEqual of CDLOpData.cpp: error unless value >= threshold. -/
def validateGreaterEqual (name : String) (value threshold : ℚ) : Except String Unit :=
  if ¬ (value ≥ threshold) then
    Except.error ("CDL: Invalid " ++ name ++ " " ++ toString value ++
      " should be greater than " ++ toString threshold ++ ".")
  else Except.ok ()

/-- validateGreaterThan of CDLOpData.cpp: error unless value > threshold. -/
def validateGreaterThan (name : String) (value threshold : ℚ) : Except String Unit :=
  if ¬ (value > threshold) then
    Except.error ("CDLOpData: Invalid " ++ name ++ " " ++ toString value ++
      " should be greater than " ++ toString threshold ++ ".")
  else Except.ok ()

/-- validateChannelParams of CDLOpData.cpp: run a check on each of the three channels. -/
def validateChannelParams (fnVal : String → ℚ → ℚ → Except String Unit)
    (name : String) (params : ChannelParams) (threshold : ℚ) : Except String Unit := do
  fnVal name params.v0 threshold
  fnVal name params.v1 threshold
  fnVal name params.v2 threshold

/-- validateParams of CDLOpData.cpp: slope >= 0, power > 0, saturation >= 0. -/
def validateParams (slopeParams powerParams : ChannelParams) (saturation : ℚ) :
    Except String Unit := do
  validateChannelParams validateGreaterEqual "slope" slopeParams 0
  validateChannelParams validateGreaterThan "power" powerParams 0
  validateGreaterEqual "saturation" saturation 0

/-- CDLOpData::validate. -/
def CDLOpData.validate (c : CDLOpData) : Except String Unit :=
  validateParams c.slopeParams c.powerParams c.saturation

/-- The validating CDLOpData constructor (CDLOpData.cpp lines 92-105):
it stores the given parameters and then calls validate(). -/
def CDLOpData.create (style : CDLStyle) (slopeParams offsetParams powerParams : ChannelParams)
    (saturation : ℚ) : Except String CDLOpData :=
  let c : CDLOpData := ⟨style, slopeParams, offsetParams, powerParams, saturation⟩
  match c.validate with
  | Except.ok _ => Except.ok c
  | Except.error e => Except.error e

/-- CDLOpData::setStyle: plain assignment, no validation. -/
def CDLOpData.setStyle (c : CDLOpData) (style : CDLStyle) : CDLOpData :=
  { c with style := style }

/-- CDLOpData::setSlopeParams (lines 136-139): plain assignment, no validation. -/
def CDLOpData.setSlopeParams (c : CDLOpData) (slopeParams : ChannelParams) : CDLOpData :=
  { c with slopeParams := slopeParams }

/-- CDLOpData::setOffsetParams: plain assignment, no validation. -/
def CDLOpData.setOffsetParams (c : CDLOpData) (offsetParams : ChannelParams) : CDLOpData :=
  { c with offsetParams := offsetParams }

/-- CDLOpData::setPowerParams: plain assignment, no validation. -/
def CDLOpData.setPowerParams (c : CDLOpData) (powerParams : ChannelParams) : CDLOpData :=
  { c with powerParams := powerParams }

/-- CDLOpData::setSaturation: plain assignment, no validation. -/
def CDLOpData.setSaturation (c : CDLOpData) (saturation : ℚ) : CDLOpData :=
  { c with saturation := saturation }

/-- CDLOpData::isIdentity. -/
def CDLOpData.isIdentity (c : CDLOpData) : Bool :=
  c.slopeParams = kOneParams ∧ c.offsetParams = kZeroParams ∧
    c.powerParams = kOneParams ∧ c.saturation = 1

/-- CDLOpData::isClamping. -/
def CDLOpData.isClamping (c : CDLOpData) : Bool :=
  match c.style with
  | CDLStyle.CDL_V1_2_FWD => true
  | CDLStyle.CDL_V1_2_REV => true
  | CDLStyle.CDL_NO_CLAMP_FWD => false
  | CDLStyle.CDL_NO_CLAMP_REV => false

/-- CDLOpData::isNoOp: identity and not clamping. -/
def CDLOpData.isNoOp (c : CDLOpData) : Bool :=
  c.isIdentity && !c.isClamping

/-- CDLOpData::isReverse. -/
def CDLOpData.isReverse (c : CDLOpData) : Bool :=
  match c.style with
  | CDLStyle.CDL_V1_2_FWD => false
  | CDLStyle.CDL_V1_2_REV => true
  | CDLStyle.CDL_NO_CLAMP_FWD => false
  | CDLStyle.CDL_NO_CLAMP_REV => true

/-- CDLOpData::hasChannelCrosstalk: true iff saturation differs from 1. -/
def CDLOpData.hasChannelCrosstalk (c : CDLOpData) : Bool :=
  c.saturation ≠ 1

/-- CDLOpData::inverse (lines 338-354): clone, then flip the style; all
slope/offset/power/saturation parameters are kept. -/
def CDLOpData.inverse (c : CDLOpData) : CDLOpData :=
  { c with style :=
      match c.style with
      | CDLStyle.CDL_V1_2_FWD => CDLStyle.CDL_V1_2_REV
      | CDLStyle.CDL_V1_2_REV => CDLStyle.CDL_V1_2_FWD
      | CDLStyle.CDL_NO_CLAMP_FWD => CDLStyle.CDL_NO_CLAMP_REV
      | CDLStyle.CDL_NO_CLAMP_REV => CDLStyle.CDL_NO_CLAMP_FWD }

/-- CDLOpData::isInverse: r equals the inverse of this object. -/
def CDLOpData.isInverse (c r : CDLOpData) : Bool :=
  r = c.inverse

/-! ## FixedFunctionOpData (src/OpenColorIO/ops/FixedFunction/FixedFunctionOpData.cpp) -/

/-- FixedFunction styles (FixedFunctionOpData::Style). -/
inductive FFStyle
  | ACES_RED_MOD_03_FWD
  | ACES_RED_MOD_03_INV
  | ACES_RED_MOD_10_FWD
  | ACES_RED_MOD_10_INV
  | ACES_GLOW_03_FWD
  | ACES_GLOW_03_INV
  | ACES_GLOW_10_FWD
  | ACES_GLOW_10_INV
  | ACES_DARK_TO_DIM_10_FWD
  | ACES_DARK_TO_DIM_10_INV
  | REC2100_SURROUND
deriving DecidableEq

/-- FixedFunction parameter payload (class FixedFunctionOpData). -/
structure FixedFunctionOpData where
  style : FFStyle
  params : List ℚ
deriving DecidableEq

/-- Validation errors of FixedFunctionOpData::validate; each constructor
carries the data interpolated into the corresponding C++ message. -/
inductive FFValidateErr
  | paramCount (style : FFStyle) (required found : Nat)
  | belowLowerBound (p lowBound : ℚ)
  | aboveUpperBound (p hiBound : ℚ)
deriving DecidableEq

/-- Rendering of FFValidateErr as the C++ message text ("Parameter p is
less than lower bound 0.001", "Parameter p is greater than upper bound 100",
"The style ... must have ... parameter but ... found."). -/
def FFValidateErr.message : FFValidateErr → String
  | FFValidateErr.paramCount _ required found =>
      "The style must have " ++ toString required ++ " parameter but " ++
        toString found ++ " found."
  | FFValidateErr.belowLowerBound p lowBound =>
      "Parameter " ++ toString p ++ " is less than lower bound " ++ toString lowBound
  | FFValidateErr.aboveUpperBound p hiBound =>
      "Parameter " ++ toString p ++ " is greater than upper bound " ++ toString hiBound

/-- FixedFunctionOpData::validate (lines 221-264): Rec2100Surround needs
exactly one parameter within [0.001, 100]; every other style needs zero
parameters. -/
def FixedFunctionOpData.validate (f : FixedFunctionOpData) : Except FFValidateErr Unit :=
  if f.style = FFStyle.REC2100_SURROUND then
    if f.params.length ≠ 1 then
      Except.error (FFValidateErr.paramCount f.style 1 f.params.length)
    else
      let p := f.params.headI
      if p < 1/1000 then Except.error (FFValidateErr.belowLowerBound p (1/1000))
      else if p > 100 then Except.error (FFValidateErr.aboveUpperBound p 100)
      else Except.ok ()
  else
    if f.params.length ≠ 0 then
      Except.error (FFValidateErr.paramCount f.style 0 f.params.length)
    else Except.ok ()

/-- The validating FixedFunctionOpData constructor (lines 202-209): stores
the parameters and style, then calls validate(). -/
def FixedFunctionOpData.create (params : List ℚ) (style : FFStyle) :
    Except FFValidateErr FixedFunctionOpData :=
  let f : FixedFunctionOpData := ⟨style, params⟩
  match f.validate with
  | Except.ok _ => Except.ok f
  | Except.error e => Except.error e

/-- FixedFunctionOpData::setParams: plain assignment, no validation. -/
def FixedFunctionOpData.setParams (f : FixedFunctionOpData) (params : List ℚ) :
    FixedFunctionOpData :=
  { f with params := params }

/-- FixedFunctionOpData::setStyle: plain assignment, no validation. -/
def FixedFunctionOpData.setStyle (f : FixedFunctionOpData) (style : FFStyle) :
    FixedFunctionOpData :=
  { f with style := style }

/-- FixedFunctionOpData::invert (lines 271-337): ACES styles swap the
forward/inverse style; REC2100_SURROUND keeps its style and replaces its
parameter by the reciprocal (m_params[0] = 1. / m_params[0]). -/
def FixedFunctionOpData.invert (f : FixedFunctionOpData) : FixedFunctionOpData :=
  match f.style with
  | FFStyle.ACES_RED_MOD_03_FWD => f.setStyle FFStyle.ACES_RED_MOD_03_INV
  | FFStyle.ACES_RED_MOD_03_INV => f.setStyle FFStyle.ACES_RED_MOD_03_FWD
  | FFStyle.ACES_RED_MOD_10_FWD => f.setStyle FFStyle.ACES_RED_MOD_10_INV
  | FFStyle.ACES_RED_MOD_10_INV => f.setStyle FFStyle.ACES_RED_MOD_10_FWD
  | FFStyle.ACES_GLOW_03_FWD => f.setStyle FFStyle.ACES_GLOW_03_INV
  | FFStyle.ACES_GLOW_03_INV => f.setStyle FFStyle.ACES_GLOW_03_FWD
  | FFStyle.ACES_GLOW_10_FWD => f.setStyle FFStyle.ACES_GLOW_10_INV
  | FFStyle.ACES_GLOW_10_INV => f.setStyle FFStyle.ACES_GLOW_10_FWD
  | FFStyle.ACES_DARK_TO_DIM_10_FWD => f.setStyle FFStyle.ACES_DARK_TO_DIM_10_INV
  | FFStyle.ACES_DARK_TO_DIM_10_INV => f.setStyle FFStyle.ACES_DARK_TO_DIM_10_FWD
  | FFStyle.REC2100_SURROUND => { f with params := f.params.set 0 (1 / f.params.headI) }

/-- FixedFunctionOpData::inverse: clone then invert. -/
def FixedFunctionOpData.inverse (f : FixedFunctionOpData) : FixedFunctionOpData :=
  f.invert

/-- FixedFunctionOpData::isInverse: r equals the inverse of this object. -/
def FixedFunctionOpData.isInverse (f r : FixedFunctionOpData) : Bool :=
  r = f.inverse

/-- Spec-side description of the CDL style flip performed by inverse():
forward and reverse styles are swapped. -/
def cdlStyleSwap : CDLStyle → CDLStyle
  | CDLStyle.CDL_V1_2_FWD => CDLStyle.CDL_V1_2_REV
  | CDLStyle.CDL_V1_2_REV => CDLStyle.CDL_V1_2_FWD
  | CDLStyle.CDL_NO_CLAMP_FWD => CDLStyle.CDL_NO_CLAMP_REV
  | CDLStyle.CDL_NO_CLAMP_REV => CDLStyle.CDL_NO_CLAMP_FWD

/-- Spec-side description of the FixedFunction style flip performed by
invert(): each ACES forward/inverse pair is swapped; REC2100_SURROUND has
no direction pair and keeps its style. -/
def ffStyleSwap : FFStyle → FFStyle
  | FFStyle.ACES_RED_MOD_03_FWD => FFStyle.ACES_RED_MOD_03_INV
  | FFStyle.ACES_RED_MOD_03_INV => FFStyle.ACES_RED_MOD_03_FWD
  | FFStyle.ACES_RED_MOD_10_FWD => FFStyle.ACES_RED_MOD_10_INV
  | FFStyle.ACES_RED_MOD_10_INV => FFStyle.ACES_RED_MOD_10_FWD
  | FFStyle.ACES_GLOW_03_FWD => FFStyle.ACES_GLOW_03_INV
  | FFStyle.ACES_GLOW_03_INV => FFStyle.ACES_GLOW_03_FWD
  | FFStyle.ACES_GLOW_10_FWD => FFStyle.ACES_GLOW_10_INV
  | FFStyle.ACES_GLOW_10_INV => FFStyle.ACES_GLOW_10_FWD
  | FFStyle.ACES_DARK_TO_DIM_10_FWD => FFStyle.ACES_DARK_TO_DIM_10_INV
  | FFStyle.ACES_DARK_TO_DIM_10_INV => FFStyle.ACES_DARK_TO_DIM_10_FWD
  | FFStyle.REC2100_SURROUND => FFStyle.REC2100_SURROUND

/-! ## Claims C3, C4, C5 -/

/-- The default CDLOpData constructor (CDLOpData.cpp lines 82-90). -/
def CDLOpData.defaultData : CDLOpData :=
  ⟨CDLStyle.CDL_V1_2_FWD, kOneParams, kZeroParams, kOneParams, 1⟩

/-- Helper: success of a sequenced Except computation. -/
theorem exceptOk_bind_unit (x : Except String Unit) (f : Unit → Except String Unit) :
    exceptOk (x >>= f) = (exceptOk x && exceptOk (f ())) := by
  cases x with
  | ok u => cases u; rfl
  | error e => rfl

/-- Helper: validateGreaterEqual succeeds iff the value meets the threshold. -/
theorem exceptOk_validateGreaterEqual (n : String) (v t : ℚ) :
    exceptOk (validateGreaterEqual n v t) = true ↔ t ≤ v := by
  unfold validateGreaterEqual
  by_cases h : v ≥ t
  · rw [if_neg (not_not.mpr h)]
    exact iff_of_true rfl h
  · rw [if_pos h]
    exact iff_of_false (by simp [exceptOk]) (fun hh => h hh)

/-- Helper: validateGreaterThan succeeds iff the value exceeds the threshold. -/
theorem exceptOk_validateGreaterThan (n : String) (v t : ℚ) :
    exceptOk (validateGreaterThan n v t) = true ↔ t < v := by
  unfold validateGreaterThan
  by_cases h : v > t
  · rw [if_neg (not_not.mpr h)]
    exact iff_of_true rfl h
  · rw [if_pos h]
    exact iff_of_false (by simp [exceptOk]) (fun hh => h hh)

/-- Helper: characterization of validateParams success (slope >= 0 per
channel, power > 0 per channel, saturation >= 0). -/
theorem exceptOk_validateParams (slope power : ChannelParams) (sat : ℚ) :
    exceptOk (validateParams slope power sat) = true ↔
      (0 ≤ slope.v0 ∧ 0 ≤ slope.v1 ∧ 0 ≤ slope.v2 ∧
       0 < power.v0 ∧ 0 < power.v1 ∧ 0 < power.v2 ∧ 0 ≤ sat) := by
  simp only [validateParams, validateChannelParams, exceptOk_bind_unit,
    Bool.and_eq_true, exceptOk_validateGreaterEqual, exceptOk_validateGreaterThan]
  tauto

/-- C3 counterexample: the claim's "exception raised after every mutating
setter" is false.  CDLOpData::setSlopeParams with a negative slope does not
reject: it stores the out-of-domain value verbatim (and only a later
validate() reports it).  The repository's own unit tests assert exactly
this (OCIO_CHECK_NO_THROW on the setter, then a throw from validate). -/
theorem c3_counterexample :
    ((CDLOpData.setSlopeParams CDLOpData.defaultData ⟨-1/10, 1, 1⟩).slopeParams =
      ⟨-1/10, 1, 1⟩) ∧
    exceptOk (CDLOpData.setSlopeParams CDLOpData.defaultData ⟨-1/10, 1, 1⟩).validate =
      false := by
  constructor
  · rfl
  · rw [Bool.eq_false_iff]
    intro h
    rw [CDLOpData.validate, exceptOk_validateParams] at h
    have h0 := h.1
    norm_num [CDLOpData.setSlopeParams, CDLOpData.defaultData] at h0

/-- C3 (amended): out-of-domain parameters are rejected at construction
(the validating constructor runs validate and otherwise stores the given
parameters verbatim, never clamped), while the mutating setters assign
without any validation, storing even out-of-domain values verbatim; a
subsequent validate() sees the newly stored parameters. -/
theorem c3_amended (style : CDLStyle) (slope offset power : ChannelParams) (sat : ℚ)
    (c : CDLOpData) (p : ChannelParams) (q : ℚ) (f : FixedFunctionOpData)
    (ps : List ℚ) (st : FFStyle) :
    CDLOpData.create style slope offset power sat =
      Except.map (fun _ => (⟨style, slope, offset, power, sat⟩ : CDLOpData))
        (validateParams slope power sat) ∧
    (CDLOpData.setSlopeParams c p).slopeParams = p ∧
    (CDLOpData.setOffsetParams c p).offsetParams = p ∧
    (CDLOpData.setPowerParams c p).powerParams = p ∧
    (CDLOpData.setSaturation c q).saturation = q ∧
    (CDLOpData.setSlopeParams c p).validate = validateParams p c.powerParams c.saturation ∧
    FixedFunctionOpData.create ps st =
      Except.map (fun _ => (⟨st, ps⟩ : FixedFunctionOpData))
        (FixedFunctionOpData.validate ⟨st, ps⟩) ∧
    (FixedFunctionOpData.setParams f ps).params = ps := by
  refine ⟨?_, rfl, rfl, rfl, rfl, rfl, ?_, rfl⟩
  · unfold CDLOpData.create
    cases h : (⟨style, slope, offset, power, sat⟩ : CDLOpData).validate with
    | ok u =>
        have h' : validateParams slope power sat = Except.ok u := h
        simp [h, h', Except.map]
    | error e =>
        have h' : validateParams slope power sat = Except.error e := h
        simp [h, h', Except.map]
  · unfold FixedFunctionOpData.create
    cases h : (⟨st, ps⟩ : FixedFunctionOpData).validate with
    | ok u => simp [h, Except.map]
    | error e => simp [h, Except.map]

/-- C4: FixedFunction validation accepts Rec2100Surround iff it has exactly
one parameter p with 0.001 <= p <= 100, reporting "greater than upper
bound" when p > 100 and "less than lower bound" when p < 0.001; every
other style validates iff it has zero parameters; CDL validation fails
exactly when some slope < 0, some power <= 0, or saturation < 0. -/
theorem c4_validation_bounds :
    (∀ ps : List ℚ,
      exceptOk (FixedFunctionOpData.validate ⟨FFStyle.REC2100_SURROUND, ps⟩) = true ↔
        (ps.length = 1 ∧ 1/1000 ≤ ps.headI ∧ ps.headI ≤ 100)) ∧
    (∀ p : ℚ,
      FixedFunctionOpData.validate ⟨FFStyle.REC2100_SURROUND, [p]⟩ =
        (if p < 1/1000 then Except.error (FFValidateErr.belowLowerBound p (1/1000))
         else if p > 100 then Except.error (FFValidateErr.aboveUpperBound p 100)
         else Except.ok ())) ∧
    (∀ (st : FFStyle) (ps : List ℚ), st = FFStyle.REC2100_SURROUND ∨
      (exceptOk (FixedFunctionOpData.validate ⟨st, ps⟩) = true ↔ ps = [])) ∧
    (∀ c : CDLOpData,
      exceptOk c.validate = true ↔
        (0 ≤ c.slopeParams.v0 ∧ 0 ≤ c.slopeParams.v1 ∧ 0 ≤ c.slopeParams.v2 ∧
         0 < c.powerParams.v0 ∧ 0 < c.powerParams.v1 ∧ 0 < c.powerParams.v2 ∧
         0 ≤ c.saturation)) := by
  refine ⟨?_, ?_, ?_, ?_⟩
  · intro ps
    by_cases h1 : ps.length = 1
    · simp only [FixedFunctionOpData.validate, h1]
      norm_num
      split_ifs with h2 h3
      · refine iff_of_false (by simp [exceptOk]) ?_
        rintro ⟨ha, hb⟩
        linarith
      · refine iff_of_false (by simp [exceptOk]) ?_
        rintro ⟨ha, hb⟩
        linarith
      · exact iff_of_true rfl ⟨by linarith, by linarith⟩
    · simp [FixedFunctionOpData.validate, h1, exceptOk]
  · intro p
    simp [FixedFunctionOpData.validate]
  · intro st ps
    by_cases hst : st = FFStyle.REC2100_SURROUND
    · exact Or.inl hst
    · refine Or.inr ?_
      by_cases h0 : ps.length = 0
      · simp [FixedFunctionOpData.validate, hst, h0, exceptOk,
          List.length_eq_zero.mp h0]
      · simp [FixedFunctionOpData.validate, hst, h0, exceptOk]
        intro h
        exact h0 (by simp [h])
  · intro c
    rw [CDLOpData.validate, exceptOk_validateParams]

/-- C5 counterexample: the claim that inverse() always flips the style and
leaves every numeric parameter unchanged is false for FixedFunction
Rec2100Surround: inverse() keeps the style and replaces the parameter by
its reciprocal (invert(): m_params[0] = 1. / m_params[0]). -/
theorem c5_counterexample :
    ((⟨FFStyle.REC2100_SURROUND, [2]⟩ : FixedFunctionOpData).inverse.params ≠ [2]) ∧
    (⟨FFStyle.REC2100_SURROUND, [2]⟩ : FixedFunctionOpData).inverse.params = [1/2] ∧
    (⟨FFStyle.REC2100_SURROUND, [2]⟩ : FixedFunctionOpData).inverse.style =
      FFStyle.REC2100_SURROUND := by
  refine ⟨?_, rfl, rfl⟩
  simp [FixedFunctionOpData.inverse, FixedFunctionOpData.invert, List.headI]
  norm_num

/-- C5 (amended): inverse() flips forward and reverse styles while keeping
every numeric parameter for CDL (all four styles) and for the paired ACES
FixedFunction styles (whose parameter list is empty); for Rec2100Surround
the style is kept and the parameter is replaced by its reciprocal. -/
theorem c5_amended (c : CDLOpData) (f : FixedFunctionOpData) :
    c.inverse.slopeParams = c.slopeParams ∧
    c.inverse.offsetParams = c.offsetParams ∧
    c.inverse.powerParams = c.powerParams ∧
    c.inverse.saturation = c.saturation ∧
    c.inverse.style = cdlStyleSwap c.style ∧
    f.inverse.style = ffStyleSwap f.style ∧
    f.inverse.params =
      (if f.style = FFStyle.REC2100_SURROUND
       then f.params.set 0 (1 / f.params.headI)
       else f.params) := by
  refine ⟨rfl, rfl, rfl, rfl, ?_, ?_, ?_⟩
  · cases h : c.style <;> simp [CDLOpData.inverse, cdlStyleSwap, h]
  · cases h : f.style <;>
      simp [FixedFunctionOpData.inverse, FixedFunctionOpData.invert,
        FixedFunctionOpData.setStyle, ffStyleSwap, h]
  · cases h : f.style <;>
      simp [FixedFunctionOpData.inverse, FixedFunctionOpData.invert,
        FixedFunctionOpData.setStyle, h]

/-! ## The op interface and the optimizer (src/OpenColorIO/OpOptimizers.cpp) -/

/-- RGBA pixel with rational components. -/
structure Pixel4 where
  r : ℚ
  g : ℚ
  b : ℚ
  a : ℚ
deriving DecidableEq

/-- OpData::Type discriminants (OpData.h). -/
inductive OpDataType
  | Lut1DType
  | Lut3DType
  | MatrixType
  | RangeType
  | CDLType
  | GammaType
  | ExponentType
  | LogType
  | FixedFunctionType
  | ExposureContrastType
  | NoOpType
deriving DecidableEq

/-- Transform directions (TRANSFORM_DIR_FORWARD / TRANSFORM_DIR_INVERSE). -/
inductive TransformDir
  | forward
  | inverse
deriving DecidableEq

/-- Bit depths relevant to the optimizer (BIT_DEPTH_*). -/
inductive BitDepth
  | UINT8
  | UINT10
  | UINT12
  | UINT14
  | UINT16
  | UINT32
  | F16
  | F32
deriving DecidableEq

/-- Modelled from the spec: the Op capability set of section 4.1 (isNoOp,
isSameType, isInverse, canCombineWith/combineWith returning 0..n
replacement ops, hasChannelCrosstalk, dynamic query, data type, direction,
per-pixel apply, shader support and code generation, plus the LUT builders
used by OptimizeSeparablePrefix and the GPU path).  The virtual Op class
(Op.h/Op.cpp) is not under src/; the optimizer and GPU sources under src/
call these capabilities through dynamic dispatch, embedded here as an
explicit interface record over the op type. -/
structure OpIface (α : Type) where
  isNoOp : α → Bool
  isSameType : α → α → Bool
  isInverse : α → α → Bool
  canCombineWith : α → α → Bool
  combineWith : α → α → List α
  hasChannelCrosstalk : α → Bool
  isDynamic : α → Bool
  dataType : α → OpDataType
  direction : α → TransformDir
  bakeLut : BitDepth → List α → α
  apply : α → Pixel4 → Pixel4
  supportedByLegacyShader : α → Bool
  mkLut3DOp : Nat → List (ℚ × ℚ × ℚ) → α
  shaderCode : α → String

/-- MAX_OPTIMIZATION_PASSES of OpOptimizers.cpp. -/
def MAX_OPTIMIZATION_PASSES : Nat := 8

/-- RemoveNoOps (OpOptimizers.cpp lines 38-57): a single sweep erasing
every op for which isNoOp holds, returning the survivors and the number
of removals. -/
def RemoveNoOps {α : Type} (I : OpIface α) (ops : List α) : List α × Nat :=
  (ops.filter (fun o => !(I.isNoOp o)), ops.countP (fun o => I.isNoOp o))

/-- Loop body of RemoveInverseOps (lines 59-104).  The C++ while loop runs
with a cursor that either advances or erases the adjacent pair and steps
back to max(0, i-1); the loop terminates within 2*length steps because
2*length - i strictly decreases, so the fuel passed by RemoveInverseOps
is sufficient.  The guard ops[i+1]? = some _ is the C++ bound check
firstindex < size - 1. -/
def RemoveInverseOpsAux {α : Type} (I : OpIface α) :
    Nat → List α → Nat → Nat → List α × Nat
  | 0, ops, _, count => (ops, count)
  | Nat.succ fuel, ops, i, count =>
    match ops[i]?, ops[i+1]? with
    | some first, some second =>
      if I.isSameType first second && I.isInverse first second then
        RemoveInverseOpsAux I fuel (ops.take i ++ ops.drop (i + 2)) (i - 1) (count + 1)
      else
        RemoveInverseOpsAux I fuel ops (i + 1) count
    | _, _ => (ops, count)

/-- RemoveInverseOps (lines 59-104): scan left to right; erase adjacent
same-type mutually-inverse pairs, re-anchoring at max(0, i-1). -/
def RemoveInverseOps {α : Type} (I : OpIface α) (ops : List α) : List α × Nat :=
  RemoveInverseOpsAux I (2 * ops.length + 1) ops 0 0

/-- Loop body of CombineOps (lines 106-153): when ops[i] can combine with
ops[i+1], the pair is replaced by the 0..n ops of combineWith and the
cursor re-anchors at max(0, i-1).  The fuel bounds the loop; it suffices
whenever combineWith does not grow the list, which holds for every
instance used below. -/
def CombineOpsAux {α : Type} (I : OpIface α) :
    Nat → List α → Nat → Nat → List α × Nat
  | 0, ops, _, count => (ops, count)
  | Nat.succ fuel, ops, i, count =>
    match ops[i]?, ops[i+1]? with
    | some first, some second =>
      if I.canCombineWith first second then
        CombineOpsAux I fuel
          (ops.take i ++ I.combineWith first second ++ ops.drop (i + 2)) (i - 1) (count + 1)
      else
        CombineOpsAux I fuel ops (i + 1) count
    | _, _ => (ops, count)

/-- CombineOps (lines 106-153). -/
def CombineOps {α : Type} (I : OpIface α) (ops : List α) : List α × Nat :=
  CombineOpsAux I (2 * ops.length + 1) ops 0 0

/-- One pass of the OptimizeOpVec fixed-point loop (lines 320-322): noop
removal, then inverse removal, then combining; the count is the total
number of rewrites of the pass (zero iff all three counts are zero). -/
def RunPasses {α : Type} (I : OpIface α) (ops : List α) : List α × Nat :=
  let r1 := RemoveNoOps I ops
  let r2 := RemoveInverseOps I r1.1
  let r3 := CombineOps I r2.1
  (r3.1, r1.2 + r2.2 + r3.2)

/-- The while loop of OptimizeOpVec (lines 318-335): run passes while
passes <= MAX_OPTIMIZATION_PASSES, breaking as soon as a pass makes no
progress; passes counts the productive passes.  The fuel
MAX_OPTIMIZATION_PASSES + 2 is exact: passes grows by one per recursive
step and the guard stops it at MAX_OPTIMIZATION_PASSES + 1. -/
def OptimizePassLoop {α : Type} (I : OpIface α) :
    Nat → List α → Nat → List α × Nat
  | 0, ops, passes => (ops, passes)
  | Nat.succ fuel, ops, passes =>
    if passes ≤ MAX_OPTIMIZATION_PASSES then
      let r := RunPasses I ops
      if r.2 = 0 then (r.1, passes)
      else OptimizePassLoop I fuel r.1 (passes + 1)
    else (ops, passes)

/-- FindSeparablePrefix (lines 166-247), named FindSeparableLead here: the
maximal leading run of separable (no crosstalk) non-dynamic ops; a run of
length exactly 1 that is already a plain forward 1D LUT counts as 0; a run
containing no expensive op (everything except Matrix and Range is
expensive) counts as 0. -/
def FindSeparableLead {α : Type} (I : OpIface α) (ops : List α) : Nat :=
  let len := (ops.takeWhile (fun o => !(I.hasChannelCrosstalk o) && !(I.isDynamic o))).length
  let lutHead : Bool :=
    match ops.head? with
    | some o0 => decide (I.dataType o0 = OpDataType.Lut1DType) &&
        decide (I.direction o0 = TransformDir.forward)
    | none => false
  if len = 1 && lutHead then 0
  else if ((ops.take len).countP
      (fun o => !(decide (I.dataType o = OpDataType.MatrixType) ||
                  decide (I.dataType o = OpDataType.RangeType)))) = 0 then 0
  else len

/-- OptimizeSeparablePrefix (lines 251-294), named OptimizeSeparableLead
here: nothing happens for an empty list or for F32/UINT32 depths or a
zero-length run; otherwise the leading run is replaced by a single baked
forward 1D LUT built by sending a lookup domain for the input depth
through clones of the run (MakeLookupDomain/ComposeVec/CreateLut1DOp live
outside src/ and are modelled by the interface bakeLut). -/
def OptimizeSeparableLead {α : Type} (I : OpIface α) (inDepth : BitDepth)
    (ops : List α) : List α :=
  if ops.isEmpty then ops
  else if inDepth = BitDepth.F32 ∨ inDepth = BitDepth.UINT32 then ops
  else
    let len := FindSeparableLead I ops
    if len = 0 then ops
    else I.bakeLut inDepth (ops.take len) :: ops.drop len

/-- Result of OptimizeOpVec: the rewritten sequence, the pass counter, and
whether the max-passes diagnostic (lines 348-357) is logged. -/
structure OptOutcome (α : Type) where
  ops : List α
  passes : Nat
  maxPassesDiagnostic : Bool
deriving DecidableEq

/-- OptimizeOpVec (lines 296-371): early return on empty input; the
fixed-point pass loop; then, when the result is nonempty and the
OPTIMIZATION_COMP_SEPARABLE_PREFIX flag is set, the separable-lead
replacement; the diagnostic is logged iff the pass counter ends exactly at
MAX_OPTIMIZATION_PASSES.  No exception is raised on non-convergence. -/
def OptimizeOpVec {α : Type} (I : OpIface α) (composeSepFlag : Bool)
    (inDepth : BitDepth) (ops : List α) : OptOutcome α :=
  if ops.isEmpty then ⟨ops, 0, false⟩
  else
    let r := OptimizePassLoop I (MAX_OPTIMIZATION_PASSES + 2) ops 0
    let finalOps :=
      if !r.1.isEmpty && composeSepFlag then OptimizeSeparableLead I inDepth r.1
      else r.1
    ⟨finalOps, r.2, decide (r.2 = MAX_OPTIMIZATION_PASSES)⟩

/-! ## Optimizer lemmas -/

/-- Helper: one-step unfolding of RemoveInverseOpsAux. -/
theorem removeInverseOpsAux_succ {α : Type} (I : OpIface α) (fuel : Nat)
    (ops : List α) (i count : Nat) :
    RemoveInverseOpsAux I (fuel + 1) ops i count =
      match ops[i]?, ops[i+1]? with
      | some first, some second =>
        if I.isSameType first second && I.isInverse first second then
          RemoveInverseOpsAux I fuel (ops.take i ++ ops.drop (i + 2)) (i - 1) (count + 1)
        else
          RemoveInverseOpsAux I fuel ops (i + 1) count
      | _, _ => (ops, count) := rfl

/-- Helper: one-step unfolding of CombineOpsAux. -/
theorem combineOpsAux_succ {α : Type} (I : OpIface α) (fuel : Nat)
    (ops : List α) (i count : Nat) :
    CombineOpsAux I (fuel + 1) ops i count =
      match ops[i]?, ops[i+1]? with
      | some first, some second =>
        if I.canCombineWith first second then
          CombineOpsAux I fuel
            (ops.take i ++ I.combineWith first second ++ ops.drop (i + 2)) (i - 1) (count + 1)
        else
          CombineOpsAux I fuel ops (i + 1) count
      | _, _ => (ops, count) := rfl

/-- Helper: the removal counter of RemoveInverseOpsAux never decreases. -/
theorem removeInverseOpsAux_count_le {α : Type} (I : OpIface α) (fuel : Nat) :
    ∀ (ops : List α) (i count : Nat),
      count ≤ (RemoveInverseOpsAux I fuel ops i count).2 := by
  induction fuel with
  | zero => intro ops i count; exact le_rfl
  | succ n ih =>
    intro ops i count
    rw [removeInverseOpsAux_succ]
    cases h1 : ops[i]? with
    | none => simp only [h1]; exact le_rfl
    | some first =>
      cases h2 : ops[i+1]? with
      | none => simp only [h1, h2]; exact le_rfl
      | some second =>
        simp only [h1, h2]
        by_cases hc : (I.isSameType first second && I.isInverse first second) = true
        · rw [if_pos hc]
          exact le_trans (Nat.le_succ count) (ih _ _ _)
        · rw [if_neg hc]
          exact ih _ _ _

/-- Helper: a RemoveInverseOpsAux run that removed nothing left the list unchanged. -/
theorem removeInverseOpsAux_count_fix {α : Type} (I : OpIface α) (fuel : Nat) :
    ∀ (ops : List α) (i count : Nat),
      (RemoveInverseOpsAux I fuel ops i count).2 = count →
      (RemoveInverseOpsAux I fuel ops i count).1 = ops := by
  induction fuel with
  | zero => intro ops i count _; rfl
  | succ n ih =>
    intro ops i count h
    rw [removeInverseOpsAux_succ] at h ⊢
    cases h1 : ops[i]? with
    | none => simp only [h1]
    | some first =>
      cases h2 : ops[i+1]? with
      | none => simp only [h1, h2]
      | some second =>
        simp only [h1, h2] at h ⊢
        by_cases hc : (I.isSameType first second && I.isInverse first second) = true
        · rw [if_pos hc] at h
          have hle := removeInverseOpsAux_count_le I n
            (ops.take i ++ ops.drop (i + 2)) (i - 1) (count + 1)
          omega
        · rw [if_neg hc] at h ⊢
          exact ih _ _ _ h

/-- Helper: the combine counter of CombineOpsAux never decreases. -/
theorem combineOpsAux_count_le {α : Type} (I : OpIface α) (fuel : Nat) :
    ∀ (ops : List α) (i count : Nat),
      count ≤ (CombineOpsAux I fuel ops i count).2 := by
  induction fuel with
  | zero => intro ops i count; exact le_rfl
  | succ n ih =>
    intro ops i count
    rw [combineOpsAux_succ]
    cases h1 : ops[i]? with
    | none => simp only [h1]; exact le_rfl
    | some first =>
      cases h2 : ops[i+1]? with
      | none => simp only [h1, h2]; exact le_rfl
      | some second =>
        simp only [h1, h2]
        by_cases hc : (I.canCombineWith first second) = true
        · rw [if_pos hc]
          exact le_trans (Nat.le_succ count) (ih _ _ _)
        · rw [if_neg hc]
          exact ih _ _ _

/-- Helper: a CombineOpsAux run that combined nothing left the list unchanged. -/
theorem combineOpsAux_count_fix {α : Type} (I : OpIface α) (fuel : Nat) :
    ∀ (ops : List α) (i count : Nat),
      (CombineOpsAux I fuel ops i count).2 = count →
      (CombineOpsAux I fuel ops i count).1 = ops := by
  induction fuel with
  | zero => intro ops i count _; rfl
  | succ n ih =>
    intro ops i count h
    rw [combineOpsAux_succ] at h ⊢
    cases h1 : ops[i]? with
    | none => simp only [h1]
    | some first =>
      cases h2 : ops[i+1]? with
      | none => simp only [h1, h2]
      | some second =>
        simp only [h1, h2] at h ⊢
        by_cases hc : (I.canCombineWith first second) = true
        · rw [if_pos hc] at h
          have hle := combineOpsAux_count_le I n
            (ops.take i ++ I.combineWith first second ++ ops.drop (i + 2)) (i - 1) (count + 1)
          omega
        · rw [if_neg hc] at h ⊢
          exact ih _ _ _ h

/-- Helper: a RemoveNoOps pass that removed nothing left the list unchanged. -/
theorem removeNoOps_count_zero {α : Type} (I : OpIface α) (ops : List α)
    (h : (RemoveNoOps I ops).2 = 0) : (RemoveNoOps I ops).1 = ops := by
  have h' : ∀ o ∈ ops, ¬ (I.isNoOp o = true) := by
    rw [← List.countP_eq_zero]
    exact h
  simp only [RemoveNoOps]
  rw [List.filter_eq_self]
  intro o ho
  have hf := h' o ho
  simp only [Bool.not_eq_true] at hf
  simp [hf]

/-- Helper: a RemoveInverseOps pass that removed nothing left the list unchanged. -/
theorem removeInverseOps_count_zero {α : Type} (I : OpIface α) (ops : List α)
    (h : (RemoveInverseOps I ops).2 = 0) : (RemoveInverseOps I ops).1 = ops :=
  removeInverseOpsAux_count_fix I _ ops 0 0 h

/-- Helper: a CombineOps pass that combined nothing left the list unchanged. -/
theorem combineOps_count_zero {α : Type} (I : OpIface α) (ops : List α)
    (h : (CombineOps I ops).2 = 0) : (CombineOps I ops).1 = ops :=
  combineOpsAux_count_fix I _ ops 0 0 h

/-- Helper: a full pass that made no progress left the list unchanged. -/
theorem runPasses_count_zero {α : Type} (I : OpIface α) (ops : List α)
    (h : (RunPasses I ops).2 = 0) : (RunPasses I ops).1 = ops := by
  simp only [RunPasses] at h ⊢
  have ha : (RemoveNoOps I ops).2 = 0 := by omega
  have e1 := removeNoOps_count_zero I ops ha
  rw [e1] at h ⊢
  have hb : (RemoveInverseOps I ops).2 = 0 := by omega
  have e2 := removeInverseOps_count_zero I ops hb
  rw [e2] at h ⊢
  have hc : (CombineOps I ops).2 = 0 := by omega
  exact combineOps_count_zero I ops hc

/-- Helper: one-step unfolding of the pass loop. -/
theorem optimizePassLoop_succ {α : Type} (I : OpIface α) (fuel : Nat)
    (ops : List α) (p : Nat) :
    OptimizePassLoop I (fuel + 1) ops p =
      (if p ≤ MAX_OPTIMIZATION_PASSES then
        (if (RunPasses I ops).2 = 0 then ((RunPasses I ops).1, p)
         else OptimizePassLoop I fuel (RunPasses I ops).1 (p + 1))
      else (ops, p)) := rfl

/-- Helper: within the exact fuel budget, the pass loop ends with a pass
counter of at most MAX_OPTIMIZATION_PASSES + 1, and whenever it ends at or
below MAX_OPTIMIZATION_PASSES it has reached a fixed point of the three
rewrite passes. -/
theorem optimizePassLoop_spec {α : Type} (I : OpIface α) (fuel : Nat) :
    ∀ (ops : List α) (p : Nat),
      p + fuel = MAX_OPTIMIZATION_PASSES + 2 →
      p ≤ MAX_OPTIMIZATION_PASSES + 1 →
      (OptimizePassLoop I fuel ops p).2 ≤ MAX_OPTIMIZATION_PASSES + 1 ∧
      ((OptimizePassLoop I fuel ops p).2 ≤ MAX_OPTIMIZATION_PASSES →
        (RunPasses I (OptimizePassLoop I fuel ops p).1).2 = 0) := by
  induction fuel with
  | zero =>
    intro ops p hpf hp
    exfalso
    simp only [MAX_OPTIMIZATION_PASSES] at hpf hp
    omega
  | succ n ih =>
    intro ops p hpf hp
    rw [optimizePassLoop_succ]
    by_cases hg : p ≤ MAX_OPTIMIZATION_PASSES
    · rw [if_pos hg]
      by_cases hz : (RunPasses I ops).2 = 0
      · rw [if_pos hz]
        refine ⟨le_trans hg (Nat.le_succ _), ?_⟩
        intro _
        show (RunPasses I (RunPasses I ops).1).2 = 0
        rw [runPasses_count_zero I ops hz]
        exact hz
      · rw [if_neg hz]
        exact ih _ (p + 1) (by omega) (by omega)
    · rw [if_neg hg]
      refine ⟨hp, ?_⟩
      intro hle
      exact absurd hle hg

/-! ## Claims C1, C2, C7 -/

/-- C1: with the cursor re-anchored at max(0, i-1) after each erasure, a
single RemoveInverseOps pass cancels a directly adjacent inverse pair
[O, O⁻¹] to the empty sequence, and collapses the nested pattern
[A, B, B⁻¹, A⁻¹] to the empty sequence as well (the hypotheses state
that the two nested pairs are same-type mutual inverses while A and B
are not). -/
theorem c1_inverse_pairs_cancel {α : Type} (I : OpIface α) (O Oi A B Bi Ai : α)
    (hO : (I.isSameType O Oi && I.isInverse O Oi) = true)
    (hB : (I.isSameType B Bi && I.isInverse B Bi) = true)
    (hA : (I.isSameType A Ai && I.isInverse A Ai) = true)
    (hAB : (I.isSameType A B && I.isInverse A B) = false) :
    RemoveInverseOps I [O, Oi] = ([], 1) ∧
    RemoveInverseOps I [A, B, Bi, Ai] = ([], 2) := by
  constructor
  · have s1 : RemoveInverseOps I [O, Oi] =
        (if I.isSameType O Oi && I.isInverse O Oi then
          RemoveInverseOpsAux I 4 ([] : List α) 0 1
        else RemoveInverseOpsAux I 4 [O, Oi] 1 0) := rfl
    rw [s1]
    simp only [hO, if_true]
    rfl
  · have s1 : RemoveInverseOps I [A, B, Bi, Ai] =
        (if I.isSameType A B && I.isInverse A B then
          RemoveInverseOpsAux I 8 [Bi, Ai] 0 1
        else RemoveInverseOpsAux I 8 [A, B, Bi, Ai] 1 0) := rfl
    rw [s1]
    simp only [hAB, Bool.false_eq_true, if_false]
    have s2 : RemoveInverseOpsAux I 8 [A, B, Bi, Ai] 1 0 =
        (if I.isSameType B Bi && I.isInverse B Bi then
          RemoveInverseOpsAux I 7 [A, Ai] 0 1
        else RemoveInverseOpsAux I 7 [A, B, Bi, Ai] 2 0) := rfl
    rw [s2]
    simp only [hB, if_true]
    have s3 : RemoveInverseOpsAux I 7 [A, Ai] 0 1 =
        (if I.isSameType A Ai && I.isInverse A Ai then
          RemoveInverseOpsAux I 6 ([] : List α) 0 2
        else RemoveInverseOpsAux I 6 [A, Ai] 1 1) := rfl
    rw [s3]
    simp only [hA, if_true]
    rfl

/-- A concrete interface instance used by witnesses: an op is an integer,
every op has the same type, and two ops are mutual inverses when they are
nonzero negations of each other. -/
def negPairIface : OpIface ℤ where
  isNoOp _ := false
  isSameType _ _ := true
  isInverse a b := decide (b = -a ∧ a ≠ 0)
  canCombineWith _ _ := false
  combineWith _ _ := []
  hasChannelCrosstalk _ := false
  isDynamic _ := false
  dataType _ := OpDataType.MatrixType
  direction _ := TransformDir.forward
  bakeLut _ _ := 0
  apply _ p := p
  supportedByLegacyShader _ := true
  mkLut3DOp _ _ := 0
  shaderCode _ := ""

/-- C1 witness: concrete sequences [1, -1] and [2, 3, -3, -2] both cancel
to the empty sequence in one RemoveInverseOps pass. -/
theorem c1_witness :
    RemoveInverseOps negPairIface [1, -1] = ([], 1) ∧
    RemoveInverseOps negPairIface [2, 3, -3, -2] = ([], 2) :=
  c1_inverse_pairs_cancel negPairIface 1 (-1) 2 3 (-3) (-2)
    (by decide) (by decide) (by decide) (by decide)

/-- Modelled from the spec: a family of combinable ops realising the
section 4.1 capability set, used to exercise the pass loop.  An op is a
level; level 0 is a no-op; a level k >= 1 combines with an equal neighbor
and combineWith returns the single replacement op 0 (the spec allows
combineWith to return 0..n replacement ops). -/
def chainIface : OpIface Nat where
  isNoOp n := decide (n = 0)
  isSameType _ _ := true
  isInverse _ _ := false
  canCombineWith a b := decide (a = b ∧ 1 ≤ a)
  combineWith _ _ := [0]
  hasChannelCrosstalk _ := false
  isDynamic _ := false
  dataType _ := OpDataType.GammaType
  direction _ := TransformDir.forward
  bakeLut _ _ := 0
  apply _ p := p
  supportedByLegacyShader _ := true
  mkLut3DOp _ _ := 0
  shaderCode _ := ""

/-- A nested sequence of depth 9: each pass combines the innermost equal
pair into a 0 and the next pass removes that 0, so every pass makes
exactly the progress that exposes the next pair. -/
def chainOps : List Nat := [9, 8, 7, 6, 5, 4, 3, 2, 1, 1, 2, 3, 4, 5, 6, 7, 8, 9]

/-- C2 counterexample: the loop guard passes <= MAX_OPTIMIZATION_PASSES
admits a ninth productive pass, so the fixed-point loop performs 9 passes
(not at most 8); it then stops short of a fixed point (a further pass
would still make progress) and the diagnostic, which fires only when the
counter ends at exactly 8, is not logged. -/
theorem c2_counterexample :
    (OptimizeOpVec chainIface false BitDepth.UINT8 chainOps).passes =
      MAX_OPTIMIZATION_PASSES + 1 ∧
    (OptimizeOpVec chainIface false BitDepth.UINT8 chainOps).maxPassesDiagnostic = false ∧
    (RunPasses chainIface (OptimizeOpVec chainIface false BitDepth.UINT8 chainOps).ops).2 ≠ 0 := by
  decide

/-- C2 (amended): the remove/combine fixed-point loop performs at most
MAX_OPTIMIZATION_PASSES + 1 = 9 passes (the guard passes <= 8 admits a
ninth productive pass); the diagnostic is logged iff the pass counter ends
at exactly 8, so a run that exhausts the budget with 9 productive passes
stops mid-reduction without the diagnostic; no exception is ever raised
and whenever the loop stops with at most 8 passes it has reached a fixed
point of the three rewrite passes. -/
theorem c2_amended {α : Type} (I : OpIface α) (flag : Bool) (depth : BitDepth)
    (ops : List α) :
    (OptimizeOpVec I flag depth ops).passes ≤ MAX_OPTIMIZATION_PASSES + 1 ∧
    ((OptimizeOpVec I flag depth ops).maxPassesDiagnostic = true ↔
      (OptimizeOpVec I flag depth ops).passes = MAX_OPTIMIZATION_PASSES) ∧
    ((OptimizeOpVec I flag depth ops).passes = MAX_OPTIMIZATION_PASSES + 1 ∨
      (RunPasses I (OptimizePassLoop I (MAX_OPTIMIZATION_PASSES + 2) ops 0).1).2 = 0) := by
  by_cases he : ops.isEmpty
  · simp only [OptimizeOpVec, he, if_true]
    refine ⟨by omega, by simp [MAX_OPTIMIZATION_PASSES], Or.inr ?_⟩
    have hops : ops = [] := by simpa using he
    subst hops
    rfl
  · have hs := optimizePassLoop_spec I (MAX_OPTIMIZATION_PASSES + 2) ops 0 rfl (by omega)
    simp only [OptimizeOpVec, he, if_false]
    refine ⟨hs.1, by simp, ?_⟩
    by_cases h9 :
        (OptimizePassLoop I (MAX_OPTIMIZATION_PASSES + 2) ops 0).2 =
          MAX_OPTIMIZATION_PASSES + 1
    · exact Or.inl h9
    · refine Or.inr (hs.2 ?_)
      have := hs.1
      omega

/-- C7 counterexample: the optimizer is not idempotent.  On the nested
chain the first run exhausts the pass budget and stops mid-reduction, so a
second run still removes the remaining no-op and changes the sequence. -/
theorem c7_counterexample :
    (OptimizeOpVec chainIface false BitDepth.UINT8
        (OptimizeOpVec chainIface false BitDepth.UINT8 chainOps).ops).ops ≠
      (OptimizeOpVec chainIface false BitDepth.UINT8 chainOps).ops := by
  decide

/-- C7 (amended): re-running the optimizer changes nothing on every
sequence on which the first run actually converged: if one pass of the
three rewrites makes no progress on L and the separable-lead replacement
leaves L unchanged, then the optimizer returns L itself with zero passes
and no diagnostic; moreover a leading separable run of length exactly 1
that is already a plain forward 1D LUT is treated as length 0 by
FindSeparablePrefix, so a baked LUT is not re-baked.  (Idempotence can
fail when the first run exhausts the 9-pass budget, see the
counterexample.) -/
theorem c7_amended {α : Type} (I : OpIface α) (flag : Bool) (depth : BitDepth)
    (L ops2 : List α) (o0 : α)
    (hfix : (RunPasses I L).2 = 0)
    (hsep : OptimizeSeparableLead I depth L = L)
    (hhead : ops2.head? = some o0)
    (hrun1 : (ops2.takeWhile
        (fun o => !(I.hasChannelCrosstalk o) && !(I.isDynamic o))).length = 1)
    (hlut : I.dataType o0 = OpDataType.Lut1DType)
    (hfwd : I.direction o0 = TransformDir.forward) :
    OptimizeOpVec I flag depth L = ⟨L, 0, false⟩ ∧
    FindSeparableLead I ops2 = 0 := by
  constructor
  · by_cases he : L.isEmpty
    · have hL : L = [] := by simpa using he
      subst hL
      rfl
    · have hloop : OptimizePassLoop I (MAX_OPTIMIZATION_PASSES + 2) L 0 = (L, 0) := by
        rw [show MAX_OPTIMIZATION_PASSES + 2 = (MAX_OPTIMIZATION_PASSES + 1) + 1 from rfl,
          optimizePassLoop_succ]
        rw [if_pos (by omega : 0 ≤ MAX_OPTIMIZATION_PASSES), if_pos hfix]
        rw [runPasses_count_zero I L hfix]
      simp only [OptimizeOpVec, he, if_false, hloop]
      cases flag with
      | false => simp [MAX_OPTIMIZATION_PASSES]
      | true =>
        have hne : L.isEmpty = false := by
          simpa using he
        simp [hne, hsep, MAX_OPTIMIZATION_PASSES]
  · simp only [FindSeparableLead, hrun1, hhead, hlut, hfwd]
    simp

/-- A concrete interface instance used by witnesses of the separable-lead
policy: op 1 is a plain forward 1D LUT, larger ops have channel
crosstalk. -/
def lutHeadIface : OpIface Nat where
  isNoOp _ := false
  isSameType _ _ := true
  isInverse _ _ := false
  canCombineWith _ _ := false
  combineWith _ _ := []
  hasChannelCrosstalk n := decide (2 ≤ n)
  isDynamic _ := false
  dataType n := if n = 1 then OpDataType.Lut1DType else OpDataType.Lut3DType
  direction _ := TransformDir.forward
  bakeLut _ _ := 0
  apply _ p := p
  supportedByLegacyShader _ := true
  mkLut3DOp _ _ := 0
  shaderCode _ := ""

/-- C7 witness: on the already-reduced sequence [5] the optimizer returns
the sequence unchanged with zero passes, and the sequence [1, 2] whose
leading separable run is the single plain forward 1D LUT op 1 gets lead
length 0. -/
theorem c7_witness :
    OptimizeOpVec lutHeadIface true BitDepth.F32 [5] =
      ⟨[5], 0, false⟩ ∧
    FindSeparableLead lutHeadIface [1, 2] = 0 :=
  c7_amended lutHeadIface true BitDepth.F32 [5] [1, 2] 1
    (by decide) (by decide) (by decide) (by decide) (by decide) (by decide)

/-! ## Range renderers (src/OpenColorIO/ops/Range/RangeOpCPU.cpp) -/

/-- Float value model for the Range renderers: some q is an ordinary
finite value, none is NaN. -/
abbrev FVal := Option ℚ

/-- C++ operator< on floats: every comparison involving NaN is false. -/
def cppLt : FVal → FVal → Bool
  | some a, some b => decide (a < b)
  | _, _ => false

/-- std::min(a, b) = (b < a) ? b : a. -/
def cppMin (a b : FVal) : FVal :=
  if cppLt b a then b else a

/-- std::max(a, b) = (a < b) ? b : a. -/
def cppMax (a b : FVal) : FVal :=
  if cppLt a b then b else a

/-- Float multiplication; NaN propagates. -/
def fMul : FVal → FVal → FVal
  | some a, some b => some (a * b)
  | _, _ => none

/-- Float addition; NaN propagates. -/
def fAdd : FVal → FVal → FVal
  | some a, some b => some (a + b)
  | _, _ => none

/-- Clamp of MathUtils.h (not under src/), modelled from the renderer
comments of RangeOpCPU.cpp ("NaNs become m_lowerBound"):
std::min(std::max(lowerBound, v), upperBound). -/
def clampF (v lo hi : FVal) : FVal :=
  cppMin (cppMax lo v) hi

/-- RGBA pixel whose components may be NaN. -/
structure PixelF where
  r : FVal
  g : FVal
  b : FVal
  a : FVal
deriving DecidableEq

/-- RangeScaleMinMaxRenderer::apply (lines 107-127) on one pixel: scale,
offset, then clamp to [lowerBound, upperBound]; alpha is passed through. -/
def rangeScaleMinMaxApply (scale offset lowerBound upperBound : ℚ) (p : PixelF) : PixelF :=
  { r := clampF (fAdd (fMul p.r (some scale)) (some offset)) (some lowerBound) (some upperBound)
    g := clampF (fAdd (fMul p.g (some scale)) (some offset)) (some lowerBound) (some upperBound)
    b := clampF (fAdd (fMul p.b (some scale)) (some offset)) (some lowerBound) (some upperBound)
    a := p.a }

/-- RangeScaleMinRenderer::apply (lines 134-154): scale, offset, then
std::max(lowerBound, out). -/
def rangeScaleMinApply (scale offset lowerBound : ℚ) (p : PixelF) : PixelF :=
  { r := cppMax (some lowerBound) (fAdd (fMul p.r (some scale)) (some offset))
    g := cppMax (some lowerBound) (fAdd (fMul p.g (some scale)) (some offset))
    b := cppMax (some lowerBound) (fAdd (fMul p.b (some scale)) (some offset))
    a := p.a }

/-- RangeScaleMaxRenderer::apply (lines 161-181): scale, offset, then
std::min(upperBound, out); the source comment states "NaNs become
m_upperBound". -/
def rangeScaleMaxApply (scale offset upperBound : ℚ) (p : PixelF) : PixelF :=
  { r := cppMin (some upperBound) (fAdd (fMul p.r (some scale)) (some offset))
    g := cppMin (some upperBound) (fAdd (fMul p.g (some scale)) (some offset))
    b := cppMin (some upperBound) (fAdd (fMul p.b (some scale)) (some offset))
    a := p.a }

/-- RangeMinMaxRenderer::apply (lines 215-231). -/
def rangeMinMaxApply (lowerBound upperBound : ℚ) (p : PixelF) : PixelF :=
  { r := clampF p.r (some lowerBound) (some upperBound)
    g := clampF p.g (some lowerBound) (some upperBound)
    b := clampF p.b (some lowerBound) (some upperBound)
    a := p.a }

/-- RangeMinRenderer::apply (lines 238-254). -/
def rangeMinApply (lowerBound : ℚ) (p : PixelF) : PixelF :=
  { r := cppMax (some lowerBound) p.r
    g := cppMax (some lowerBound) p.g
    b := cppMax (some lowerBound) p.b
    a := p.a }

/-- RangeMaxRenderer::apply (lines 261-277): std::min(upperBound, in); the
source comment states "NaNs become m_upperBound". -/
def rangeMaxApply (upperBound : ℚ) (p : PixelF) : PixelF :=
  { r := cppMin (some upperBound) p.r
    g := cppMin (some upperBound) p.g
    b := cppMin (some upperBound) p.b
    a := p.a }

/-! ## Claim C9 -/

/-- C9 counterexample: for a Range op whose only bound is an upper bound
(RangeMaxRenderer, and its scaling variant), a NaN input component is
mapped to the UPPER output bound, not to a lower output bound as the
claim states (the op has no lower bound at all). -/
theorem c9_counterexample :
    (rangeMaxApply (11/10) ⟨none, none, none, some 0⟩).r = some (11/10) ∧
    (rangeScaleMaxApply 1 0 (11/10) ⟨none, none, none, some 0⟩).r = some (11/10) := by
  constructor
  · rfl
  · rfl

/-- C9 (amended): Range renderers with a lower bound (min-max and min-only,
scaling or not) map NaN components of R, G and B to the lower output
bound; the renderers whose only bound is an upper bound (max-only,
scaling or not) map NaN to the upper output bound; in all cases alpha is
passed through and no error is raised (apply is total). -/
theorem c9_amended (scale offset lo hi : ℚ) (hlohi : lo ≤ hi) (av : FVal) :
    rangeScaleMinMaxApply scale offset lo hi ⟨none, none, none, av⟩ =
      ⟨some lo, some lo, some lo, av⟩ ∧
    rangeScaleMinApply scale offset lo ⟨none, none, none, av⟩ =
      ⟨some lo, some lo, some lo, av⟩ ∧
    rangeScaleMaxApply scale offset hi ⟨none, none, none, av⟩ =
      ⟨some hi, some hi, some hi, av⟩ ∧
    rangeMinMaxApply lo hi ⟨none, none, none, av⟩ =
      ⟨some lo, some lo, some lo, av⟩ ∧
    rangeMinApply lo ⟨none, none, none, av⟩ =
      ⟨some lo, some lo, some lo, av⟩ ∧
    rangeMaxApply hi ⟨none, none, none, av⟩ =
      ⟨some hi, some hi, some hi, av⟩ := by
  have hnl : ¬ (hi < lo) := not_lt.mpr hlohi
  refine ⟨?_, rfl, rfl, ?_, rfl, rfl⟩
  · simp [rangeScaleMinMaxApply, clampF, cppMin, cppMax, cppLt, fMul, fAdd, hnl]
  · simp [rangeMinMaxApply, clampF, cppMin, cppMax, cppLt, hnl]

/-- C9 witness: the amended NaN behavior at concrete bounds [1/2, 3/2]. -/
theorem c9_witness :
    rangeScaleMinMaxApply 1 0 (1/2) (3/2) ⟨none, none, none, some 0⟩ =
      ⟨some (1/2), some (1/2), some (1/2), some 0⟩ ∧
    rangeScaleMinApply 1 0 (1/2) ⟨none, none, none, some 0⟩ =
      ⟨some (1/2), some (1/2), some (1/2), some 0⟩ ∧
    rangeScaleMaxApply 1 0 (3/2) ⟨none, none, none, some 0⟩ =
      ⟨some (3/2), some (3/2), some (3/2), some 0⟩ ∧
    rangeMinMaxApply (1/2) (3/2) ⟨none, none, none, some 0⟩ =
      ⟨some (1/2), some (1/2), some (1/2), some 0⟩ ∧
    rangeMinApply (1/2) ⟨none, none, none, some 0⟩ =
      ⟨some (1/2), some (1/2), some (1/2), some 0⟩ ∧
    rangeMaxApply (3/2) ⟨none, none, none, some 0⟩ =
      ⟨some (3/2), some (3/2), some (3/2), some 0⟩ :=
  c9_amended 1 0 (1/2) (3/2) (by norm_num) (some 0)

/-! ## Dynamic property lookup (src/OpenColorIO/GPUProcessor.cpp lines 94-105) -/

/-- Dynamic property kinds (DynamicPropertyType). -/
inductive DynamicPropertyType
  | EXPOSURE
  | CONTRAST
  | GAMMA
deriving DecidableEq

/-- GPUProcessor::Impl::getDynamicProperty (lines 94-105): scan the
finalized op sequence in order and return the property of the first op
exposing the requested kind; throw if no op does.  The virtual
Op::hasDynamicProperty is not under src/ and is abstracted as hasProp;
returning the op models returning its property. -/
def getDynamicPropertyImpl {α : Type} (hasProp : α → DynamicPropertyType → Bool) :
    List α → DynamicPropertyType → Except String α
  | [], _ => Except.error ("Cannot find dynamic property; not used by GPU processor.")
  | o :: rest, t =>
    if hasProp o t then Except.ok o else getDynamicPropertyImpl hasProp rest t

/-- C10: the dynamic-property lookup returns the first op in sequence
order exposing the kind (the semantics of List.find?), and when no op in
the sequence exposes the kind it returns the exception (no default value
is substituted). -/
theorem c10_dynamic_property_lookup {α : Type}
    (hasProp : α → DynamicPropertyType → Bool) (ops : List α)
    (t : DynamicPropertyType) :
    getDynamicPropertyImpl hasProp ops t =
      (match ops.find? (fun o => hasProp o t) with
       | some o => Except.ok o
       | none =>
           Except.error ("Cannot find dynamic property; not used by GPU processor.")) := by
  induction ops with
  | nil => rfl
  | cons o rest ih =>
    by_cases h : hasProp o t
    · simp [getDynamicPropertyImpl, List.find?, h]
    · have hf : hasProp o t = false := by simpa using h
      simp [getDynamicPropertyImpl, List.find?, hf, ih]

/-! ## GPU extraction (src/OpenColorIO/GPUProcessor.cpp) -/

/-- Modelled from the spec: one sample of the identity RGBA lattice built
by GenerateIdentityLut3D with LUT3DORDER_FAST_BLUE (Lut3DOp.cpp is not
under src/): the blue axis varies fastest as the flat index increments,
each channel sweeps 0..1 in edgeLen steps, and alpha is a filler value
discarded by the caller. -/
def identityLut3DEntry (e i : Nat) : Pixel4 :=
  { r := ((i / (e * e)) % e : ℚ) / ((e : ℚ) - 1)
    g := ((i / e) % e : ℚ) / ((e : ℚ) - 1)
    b := ((i % e : ℚ)) / ((e : ℚ) - 1)
    a := 1 }

/-- Modelled from the spec: the identity RGBA lattice of edgeLen^3 samples
with the blue axis varying fastest. -/
def identityLut3D (e : Nat) : List Pixel4 :=
  (List.range (e * e * e)).map (identityLut3DEntry e)

/-- Sequential in-place application of a list of ops to one pixel. -/
def applyAllOpsPixel {α : Type} (I : OpIface α) (ops : List α) (p : Pixel4) : Pixel4 :=
  ops.foldl (fun q o => I.apply o q) p

/-- The application loop of Create3DLut (GPUProcessor.cpp lines 72-75):
each op runs over the whole lattice in place before the next op starts. -/
def applyOpsBuffer {α : Type} (I : OpIface α) (ops : List α)
    (buf : List Pixel4) : List Pixel4 :=
  ops.foldl (fun b o => b.map (I.apply o)) buf

/-- Create3DLut (GPUProcessor.cpp lines 58-89): empty input gives an empty
op list; otherwise synthesize the identity RGBA lattice of edgeLen^3
samples, run every op over it in place, drop the alpha channel, and wrap
the RGB lattice as one forward 3D-LUT op (CreateLut3DOp, modelled by the
interface constructor mkLut3DOp). -/
def Create3DLut {α : Type} (I : OpIface α) (ops : List α) (edgelen : Nat) : List α :=
  if ops.isEmpty then []
  else
    [I.mkLut3DOp edgelen
      ((applyOpsBuffer I ops (identityLut3D edgelen)).map (fun p => (p.r, p.g, p.b)))]

/-- Modelled from the spec: PartitionGPUOps (NoOps.cpp is not under src/)
splits the sequence into the maximal inline-expressible prefix span, the
minimal contiguous interior span covering every op the legacy shader
cannot express, and the maximal inline-expressible suffix span. -/
def PartitionGPUOps {α : Type} (I : OpIface α) (ops : List α) :
    List α × List α × List α :=
  let pre := ops.takeWhile (fun o => I.supportedByLegacyShader o)
  let rest := ops.dropWhile (fun o => I.supportedByLegacyShader o)
  let post := (rest.reverse.takeWhile (fun o => I.supportedByLegacyShader o)).reverse
  let mid := (rest.reverse.dropWhile (fun o => I.supportedByLegacyShader o)).reverse
  (pre, mid, post)

/-- Result of the GPU shader extraction: the final op sequence handed to
per-op code generation, and the shader body fragments in order. -/
structure GpuShaderResult (α : Type) where
  finalOps : List α
  shaderBody : List String

/-- The legacy branch of GPUProcessor::Impl::extractGpuShaderInfo (lines
151-191): partition, synthesize the 3D LUT from the interior, reassemble
prefix ++ lut ++ suffix, re-run the optimizer at F32, and generate shader
code for each op of the final sequence in order.  FinalizeOpVec validates
and computes cache ids without changing the sequence and is modelled as
the identity; the OPTIMIZATION_DEFAULT flag set is abstracted by
sepFlag (at BIT_DEPTH_F32 the separable-prefix step never fires). -/
def extractGpuShaderInfoLegacy {α : Type} (I : OpIface α) (sepFlag : Bool)
    (edgelen : Nat) (m_ops : List α) : GpuShaderResult α :=
  let parts := PartitionGPUOps I m_ops
  let gpuLut := Create3DLut I parts.2.1 edgelen
  let gpuOps := parts.1 ++ gpuLut ++ parts.2.2
  let opt := OptimizeOpVec I sepFlag BitDepth.F32 gpuOps
  ⟨opt.ops, opt.ops.map I.shaderCode⟩

/-- Helper: running the ops over the whole buffer op-by-op equals mapping
the per-pixel composite over the buffer. -/
theorem applyOpsBuffer_eq_map {α : Type} (I : OpIface α) (ops : List α) :
    ∀ buf : List Pixel4, applyOpsBuffer I ops buf = buf.map (applyAllOpsPixel I ops) := by
  induction ops with
  | nil =>
    intro buf
    have hid : applyAllOpsPixel I ([] : List α) = id := by
      funext p
      rfl
    simp [applyOpsBuffer, hid]
  | cons o rest ih =>
    intro buf
    simp only [applyOpsBuffer, List.foldl_cons] at ih ⊢
    rw [ih (buf.map (I.apply o)), List.map_map]
    rfl

/-- Helper: the three partition spans concatenate back to the input. -/
theorem partitionGPUOps_append {α : Type} (I : OpIface α) (ops : List α) :
    (PartitionGPUOps I ops).1 ++ (PartitionGPUOps I ops).2.1 ++
      (PartitionGPUOps I ops).2.2 = ops := by
  simp only [PartitionGPUOps]
  rw [List.append_assoc, ← List.reverse_append, List.takeWhile_append_dropWhile,
    List.reverse_reverse, List.takeWhile_append_dropWhile]

/-! ## Claim C8 -/

/-- C8: on the legacy GPU path the extractor partitions the sequence into
an inline-expressible prefix span, the interior span, and an
inline-expressible suffix span that concatenate to the original order;
synthesizes the edgeLen^3-sample identity lattice with blue varying
fastest, applies every interior op to it in place, discards alpha and
wraps the result as a single forward 3D-LUT op; then reassembles
prefix ++ lut ++ suffix, re-optimizes that sequence, and generates shader
code for each op of the optimized sequence in order. -/
theorem c8_legacy_gpu_path {α : Type} (I : OpIface α) (sepFlag : Bool)
    (edgelen : Nat) (ops pre mid post : List α)
    (hpart : PartitionGPUOps I ops = (pre, mid, post))
    (hmid : mid ≠ []) :
    pre ++ mid ++ post = ops ∧
    (∀ o ∈ pre, I.supportedByLegacyShader o = true) ∧
    (∀ o ∈ post, I.supportedByLegacyShader o = true) ∧
    (identityLut3D edgelen).length = edgelen * edgelen * edgelen ∧
    (∀ i, i < edgelen * edgelen * edgelen →
      (identityLut3D edgelen)[i]? = some (identityLut3DEntry edgelen i)) ∧
    Create3DLut I mid edgelen =
      [I.mkLut3DOp edgelen ((identityLut3D edgelen).map
        (fun p =>
          ((applyAllOpsPixel I mid p).r, (applyAllOpsPixel I mid p).g,
            (applyAllOpsPixel I mid p).b)))] ∧
    extractGpuShaderInfoLegacy I sepFlag edgelen ops =
      ⟨(OptimizeOpVec I sepFlag BitDepth.F32 (pre ++ Create3DLut I mid edgelen ++ post)).ops,
       (OptimizeOpVec I sepFlag BitDepth.F32
          (pre ++ Create3DLut I mid edgelen ++ post)).ops.map I.shaderCode⟩ := by
  have hpre : pre = (PartitionGPUOps I ops).1 := by rw [hpart]
  have hmid' : mid = (PartitionGPUOps I ops).2.1 := by rw [hpart]
  have hpost : post = (PartitionGPUOps I ops).2.2 := by rw [hpart]
  refine ⟨?_, ?_, ?_, ?_, ?_, ?_, ?_⟩
  · rw [hpre, hmid', hpost]
    exact partitionGPUOps_append I ops
  · intro o ho
    rw [hpre] at ho
    simp only [PartitionGPUOps] at ho
    exact List.mem_takeWhile_imp ho
  · intro o ho
    rw [hpost] at ho
    simp only [PartitionGPUOps, List.mem_reverse] at ho
    exact List.mem_takeWhile_imp ho
  · simp [identityLut3D]
  · intro i hi
    simp [identityLut3D, List.getElem?_map, List.getElem?_range hi]
  · have hne : ¬ (mid.isEmpty = true) := by simpa using hmid
    rw [Create3DLut, if_neg hne, applyOpsBuffer_eq_map, List.map_map]
    rfl
  · simp only [extractGpuShaderInfoLegacy, hpart]

/-- A concrete interface instance used by the C8 witness: op 3 is the only
op the legacy shader cannot express; it swaps the red and blue channels. -/
def gpuWitnessIface : OpIface Nat where
  isNoOp _ := false
  isSameType _ _ := true
  isInverse _ _ := false
  canCombineWith _ _ := false
  combineWith _ _ := []
  hasChannelCrosstalk _ := false
  isDynamic _ := false
  dataType _ := OpDataType.MatrixType
  direction _ := TransformDir.forward
  bakeLut _ _ := 0
  apply n p := if n = 3 then ⟨p.b, p.g, p.r, p.a⟩ else p
  supportedByLegacyShader n := decide (n ≠ 3)
  mkLut3DOp _ _ := 7
  shaderCode n := toString n

/-- C8 witness: the legacy path on [1, 3, 2] with the non-inlinable op 3
surrounded by inlinable ops, at edge length 2. -/
theorem c8_witness :
    [1] ++ [3] ++ [2] = [1, 3, 2] ∧
    (∀ o ∈ [1], gpuWitnessIface.supportedByLegacyShader o = true) ∧
    (∀ o ∈ [2], gpuWitnessIface.supportedByLegacyShader o = true) ∧
    (identityLut3D 2).length = 2 * 2 * 2 ∧
    (∀ i, i < 2 * 2 * 2 →
      (identityLut3D 2)[i]? = some (identityLut3DEntry 2 i)) ∧
    Create3DLut gpuWitnessIface [3] 2 =
      [gpuWitnessIface.mkLut3DOp 2 ((identityLut3D 2).map
        (fun p =>
          ((applyAllOpsPixel gpuWitnessIface [3] p).r,
            (applyAllOpsPixel gpuWitnessIface [3] p).g,
            (applyAllOpsPixel gpuWitnessIface [3] p).b)))] ∧
    extractGpuShaderInfoLegacy gpuWitnessIface false 2 [1, 3, 2] =
      ⟨(OptimizeOpVec gpuWitnessIface false BitDepth.F32
          ([1] ++ Create3DLut gpuWitnessIface [3] 2 ++ [2])).ops,
       (OptimizeOpVec gpuWitnessIface false BitDepth.F32
          ([1] ++ Create3DLut gpuWitnessIface [3] 2 ++ [2])).ops.map
          gpuWitnessIface.shaderCode⟩ :=
  c8_legacy_gpu_path gpuWitnessIface false 2 [1, 3, 2] [1] [3] [2]
    (by decide) (by decide)

/-! ## MatrixOpData (src/OpenColorIO/ops/Matrix/MatrixOpData.cpp) -/

/-- 4x4 matrix payload (class MatrixOpData): 16 row-major coefficients and
4 offsets, modelled as functions on Fin 4. -/
@[ext]
structure MatrixOpData where
  m : Fin 4 → Fin 4 → ℚ
  offsets : Fin 4 → ℚ

/-- MatrixArray::inner (lines 115-145): row-major product Out = A x B,
with the four-term accumulation loop unrolled. -/
def matInner (A B : Fin 4 → Fin 4 → ℚ) : Fin 4 → Fin 4 → ℚ :=
  fun row col =>
    A row 0 * B 0 col + A row 1 * B 1 col + A row 2 * B 2 col + A row 3 * B 3 col

/-- MatrixArray::inner on offsets (lines 147-163). -/
def matInnerOff (A : Fin 4 → Fin 4 → ℚ) (b : Fin 4 → ℚ) : Fin 4 → ℚ :=
  fun i => A i 0 * b 0 + A i 1 * b 1 + A i 2 * b 2 + A i 3 * b 3

/-- The per-value rounding of cleanUp (lines 732-745 and 751-760): a value
whose distance to the nearest integer is below the tolerance is replaced
by that integer. -/
def snapVal (v tol : ℚ) : ℚ :=
  if |v - ((round v : ℤ) : ℚ)| < tol then ((round v : ℤ) : ℚ) else v

/-- Magnitude estimate of cleanUp (lines 712-721): the running max of the
absolute values of the 16 coefficients, starting from 0. -/
def maxAbs4x4 (m : Fin 4 → Fin 4 → ℚ) : ℚ :=
  [|m 0 0|, |m 0 1|, |m 0 2|, |m 0 3|,
   |m 1 0|, |m 1 1|, |m 1 2|, |m 1 3|,
   |m 2 0|, |m 2 1|, |m 2 2|, |m 2 3|,
   |m 3 0|, |m 3 1|, |m 3 2|, |m 3 3|].foldl max 0

/-- The matrix tolerance of cleanUp (lines 729-730):
scale * 1e-6 with scale = max(max_val, 1e-4). -/
def cleanTol (m : Fin 4 → Fin 4 → ℚ) : ℚ :=
  max (maxAbs4x4 m) (1/10000) * (1/1000000)

/-- MatrixOpData::cleanUp (lines 706-761): snap every coefficient with the
matrix tolerance and every offset with the offset-scale tolerance. -/
def MatrixOpData.cleanUp (M : MatrixOpData) (offsetScale : ℚ) : MatrixOpData :=
  ⟨fun i j => snapVal (M.m i j) (cleanTol M.m),
   fun i => snapVal (M.offsets i) (max offsetScale (1/10000) * (1/1000000))⟩

/-- Offset magnitude loop of compose (lines 680-689): running max of the
absolute transformed offsets of A and the offsets of B. -/
def offsMaxVal (offs boffs : Fin 4 → ℚ) : ℚ :=
  [|offs 0|, |boffs 0|, |offs 1|, |boffs 1|,
   |offs 2|, |boffs 2|, |offs 3|, |boffs 3|].foldl max 0

/-- MatrixOpData::compose (lines 640-704): A.compose(B), where A precedes
B in the op list, computes the matrix B x A, sends the offsets of A
through B, adds the offsets of B and snaps near-integer values through
cleanUp with the offset magnitude computed before the addition. -/
def MatrixOpData.compose (A B : MatrixOpData) : MatrixOpData :=
  MatrixOpData.cleanUp
    ⟨matInner B.m A.m, fun i => matInnerOff B.m A.offsets i + B.offsets i⟩
    (offsMaxVal (matInnerOff B.m A.offsets) B.offsets)

/-- Per-pixel application out = M x in + offsets.  MatrixOpCPU is not
under src/; modelled from the data model of the spec (4x4 coefficients
plus 4 offsets). -/
def MatrixOpData.applyV (M : MatrixOpData) (x : Fin 4 → ℚ) : Fin 4 → ℚ :=
  fun i => M.m i 0 * x 0 + M.m i 1 * x 1 + M.m i 2 * x 2 + M.m i 3 * x 3 + M.offsets i

/-- MatrixOpData::Offsets::isNotNull (lines 77-81), as used by hasOffsets. -/
def MatrixOpData.hasOffsets (M : MatrixOpData) : Bool :=
  decide (¬ (M.offsets 0 = 0 ∧ M.offsets 1 = 0 ∧ M.offsets 2 = 0 ∧ M.offsets 3 = 0))

/-- MatrixOpData::isDiagonal (lines 537-556). -/
def MatrixOpData.isDiagonal (M : MatrixOpData) : Bool :=
  decide (∀ i j : Fin 4, i ≠ j → M.m i j = 0)

/-- MatrixOpData::isMatrixIdentity (lines 510-534): every diagonal entry
within 1e-6 of 1. -/
def MatrixOpData.isMatrixIdentity (M : MatrixOpData) : Bool :=
  decide (∀ i : Fin 4, |M.m i i - 1| ≤ 1/1000000)

/-- MatrixOpData::hasAlpha (lines 556-585): a nonzero in the last column,
a last diagonal entry away from 1, a nonzero in the bottom row, or a
nonzero alpha offset. -/
def MatrixOpData.hasAlpha (M : MatrixOpData) : Bool :=
  decide (¬ (M.m 0 3 = 0 ∧ M.m 1 3 = 0 ∧ M.m 2 3 = 0)) ||
  decide (¬ (|M.m 3 3 - 1| ≤ 1/1000000)) ||
  decide (¬ (M.m 3 0 = 0 ∧ M.m 3 1 = 0 ∧ M.m 3 2 = 0)) ||
  decide (¬ (M.offsets 3 = 0))

/-- MatrixOpData::isIdentity (lines 500-508). -/
def MatrixOpData.isIdentity (M : MatrixOpData) : Bool :=
  if M.hasOffsets || M.hasAlpha || !M.isDiagonal then false
  else M.isMatrixIdentity

/-- Modelled from the spec: the matrix op interface instance (MatrixOps.cpp
is outside src/).  Adjacent matrix ops always combine; combineWith
composes the payloads via MatrixOpData::compose and, per the CombineOps
contract, returns no replacement op when the composition cancels to an
identity; isNoOp is MatrixOpData::isNoOp = isIdentity (lines 493-496). -/
def matIface : OpIface MatrixOpData where
  isNoOp M := M.isIdentity
  isSameType _ _ := true
  isInverse _ _ := false
  canCombineWith _ _ := true
  combineWith A B := if (A.compose B).isIdentity then [] else [A.compose B]
  hasChannelCrosstalk M := !M.isDiagonal
  isDynamic _ := false
  dataType _ := OpDataType.MatrixType
  direction _ := TransformDir.forward
  bakeLut _ _ := ⟨fun i j => if i = j then 1 else 0, fun _ => 0⟩
  apply M p :=
    let x : Fin 4 → ℚ := fun i =>
      if i = 0 then p.r else if i = 1 then p.g else if i = 2 then p.b else p.a
    ⟨M.applyV x 0, M.applyV x 1, M.applyV x 2, M.applyV x 3⟩
  supportedByLegacyShader _ := true
  mkLut3DOp _ _ := ⟨fun i j => if i = j then 1 else 0, fun _ => 0⟩
  shaderCode _ := ""

/-- A scale matrix: diagonal coefficients, zero offsets (the payload of
CreateScaleOp). -/
def diagMat (d : Fin 4 → ℚ) : MatrixOpData :=
  ⟨fun i j => if i = j then d i else 0, fun _ => 0⟩

/-! ## Matrix lemmas -/

/-- Helper: a fold of max stays below any bound dominating the seed and
the elements. -/
theorem foldl_max_le (B : ℚ) :
    ∀ (l : List ℚ) (c : ℚ), c ≤ B → (∀ a ∈ l, a ≤ B) → l.foldl max c ≤ B := by
  intro l
  induction l with
  | nil => intro c hc _; simpa using hc
  | cons a t ih =>
    intro c hc h
    simp only [List.foldl_cons]
    exact ih (max c a) (max_le hc (h a (by simp))) (fun b hb => h b (by simp [hb]))

/-- Helper: the seed is below a fold of max. -/
theorem le_foldl_max_init : ∀ (l : List ℚ) (c : ℚ), c ≤ l.foldl max c := by
  intro l
  induction l with
  | nil => intro c; simp
  | cons a t ih =>
    intro c
    simp only [List.foldl_cons]
    exact le_trans (le_max_left c a) (ih (max c a))

/-- Helper: every member is below a fold of max. -/
theorem le_foldl_max_of_mem : ∀ (l : List ℚ) (c a : ℚ), a ∈ l → a ≤ l.foldl max c := by
  intro l
  induction l with
  | nil => intro c a ha; simp at ha
  | cons b t ih =>
    intro c a ha
    rcases List.mem_cons.mp ha with h | h
    · subst h
      simp only [List.foldl_cons]
      exact le_trans (le_max_right c a) (le_foldl_max_init t (max c a))
    · simp only [List.foldl_cons]
      exact ih (max c b) a h

/-- Helper: snapping moves a value by at most the tolerance. -/
theorem snapVal_sub_le (v tol : ℚ) (h : 0 ≤ tol) : |snapVal v tol - v| ≤ tol := by
  unfold snapVal
  split_ifs with hs
  · calc |((round v : ℤ) : ℚ) - v| = |v - ((round v : ℤ) : ℚ)| := abs_sub_comm _ _
      _ ≤ tol := le_of_lt hs
  · simpa using h

/-- Helper: zero is snapped to zero for any positive tolerance. -/
theorem snapVal_zero (tol : ℚ) (h : 0 < tol) : snapVal 0 tol = 0 := by
  unfold snapVal
  rw [if_pos]
  · simp
  · simpa using h

/-- Helper: the cleanUp matrix tolerance is positive. -/
theorem cleanTol_pos (m : Fin 4 → Fin 4 → ℚ) : 0 < cleanTol m :=
  mul_pos (lt_of_lt_of_le (by norm_num) (le_max_right _ _)) (by norm_num)

/-- Helper: the cleanUp offset tolerance is positive. -/
theorem offsTol_pos (s : ℚ) : 0 < max s (1/10000) * (1/1000000) :=
  mul_pos (lt_of_lt_of_le (by norm_num) (le_max_right _ _)) (by norm_num)

/-- Helper: the inner product of two diagonal matrices is the diagonal
matrix of the pointwise products. -/
theorem matInner_diag (a b : Fin 4 → ℚ) :
    matInner (diagMat b).m (diagMat a).m = (diagMat (fun i => b i * a i)).m := by
  funext i j
  fin_cases i <;> fin_cases j <;> simp [matInner, diagMat]

/-- Helper: transforming zero offsets gives zero offsets. -/
theorem matInnerOff_zero (A : Fin 4 → Fin 4 → ℚ) :
    matInnerOff A (fun _ => 0) = fun _ => 0 := by
  funext i
  simp [matInnerOff]

/-- Helper: composing two scale matrices yields the scale matrix of the
snapped pointwise products. -/
theorem compose_diag (a b : Fin 4 → ℚ) :
    (diagMat a).compose (diagMat b) =
      diagMat (fun i =>
        snapVal (b i * a i) (cleanTol (diagMat (fun k => b k * a k)).m)) := by
  unfold MatrixOpData.compose MatrixOpData.cleanUp
  apply MatrixOpData.ext
  · show (fun i j => snapVal (matInner (diagMat b).m (diagMat a).m i j)
        (cleanTol (matInner (diagMat b).m (diagMat a).m))) = _
    rw [matInner_diag]
    funext i j
    by_cases hij : i = j
    · subst hij
      simp [diagMat]
    · simp [diagMat, hij]
      exact snapVal_zero _ (cleanTol_pos _)
  · show (fun i => snapVal (matInnerOff (diagMat b).m (diagMat a).offsets i +
        (diagMat b).offsets i) _) = _
    have hoffA : (diagMat a).offsets = fun _ => 0 := rfl
    have hoffB : (diagMat b).offsets = fun _ => 0 := rfl
    rw [hoffA, hoffB, matInnerOff_zero]
    funext i
    simpa using snapVal_zero _ (offsTol_pos _)

/-- Helper: upper bound on the cleanUp magnitude estimate. -/
theorem maxAbs4x4_le (m : Fin 4 → Fin 4 → ℚ) (B : ℚ) (h0 : 0 ≤ B)
    (h : ∀ i j, |m i j| ≤ B) : maxAbs4x4 m ≤ B := by
  apply foldl_max_le B _ 0 h0
  intro a ha
  simp only [List.mem_cons, List.not_mem_nil, or_false] at ha
  rcases ha with rfl | rfl | rfl | rfl | rfl | rfl | rfl | rfl |
    rfl | rfl | rfl | rfl | rfl | rfl | rfl | rfl <;> exact h _ _

/-- Helper: every coefficient is below the cleanUp magnitude estimate. -/
theorem le_maxAbs4x4 (m : Fin 4 → Fin 4 → ℚ) (i j : Fin 4) :
    |m i j| ≤ maxAbs4x4 m := by
  apply le_foldl_max_of_mem
  fin_cases i <;> fin_cases j <;> simp

/-- Helper: a scale matrix acts componentwise on a pixel. -/
theorem diag_applyV (d x : Fin 4 → ℚ) :
    (diagMat d).applyV x = fun i => d i * x i := by
  funext i
  fin_cases i <;> simp [MatrixOpData.applyV, diagMat]

/-! ## Claim C6 -/

/-- C6 (amended): for scale matrices with diagonal entries bounded by 2 in
absolute value and pixels with components in [-1, 1], the CombineOps step
replaces the three ops by the single matrix op obtained by composing them
pairwise (provided neither partial composition cancels to an identity),
and the combined op differs from applying the three matrices in order by
at most 2e-5 in every component. -/
theorem c6_amended (u v w x : Fin 4 → ℚ)
    (hu : ∀ i, |u i| ≤ 2) (hv : ∀ i, |v i| ≤ 2) (hw : ∀ i, |w i| ≤ 2)
    (hx : ∀ i, |x i| ≤ 1)
    (h1 : ((diagMat u).compose (diagMat v)).isIdentity = false)
    (h2 : (((diagMat u).compose (diagMat v)).compose (diagMat w)).isIdentity = false) :
    CombineOps matIface [diagMat u, diagMat v, diagMat w] =
      ([((diagMat u).compose (diagMat v)).compose (diagMat w)], 2) ∧
    ∀ i : Fin 4,
      |(((diagMat u).compose (diagMat v)).compose (diagMat w)).applyV x i -
        (diagMat w).applyV ((diagMat v).applyV ((diagMat u).applyV x)) i| ≤
        2/100000 := by
  constructor
  · have s1 : CombineOps matIface [diagMat u, diagMat v, diagMat w] =
        CombineOpsAux matIface 6
          (matIface.combineWith (diagMat u) (diagMat v) ++ [diagMat w]) 0 1 := rfl
    have hcw1 : matIface.combineWith (diagMat u) (diagMat v) =
        [(diagMat u).compose (diagMat v)] := by
      show (if ((diagMat u).compose (diagMat v)).isIdentity then []
            else [(diagMat u).compose (diagMat v)]) = _
      simp [h1]
    have s2 : ∀ (M C : MatrixOpData) (k : Nat),
        CombineOpsAux matIface 6 [M, C] 0 k =
          CombineOpsAux matIface 5 (matIface.combineWith M C ++ []) 0 (k + 1) :=
      fun M C k => rfl
    have hcw2 : matIface.combineWith ((diagMat u).compose (diagMat v)) (diagMat w) =
        [((diagMat u).compose (diagMat v)).compose (diagMat w)] := by
      show (if (((diagMat u).compose (diagMat v)).compose (diagMat w)).isIdentity then []
            else [((diagMat u).compose (diagMat v)).compose (diagMat w)]) = _
      simp [h2]
    have s3 : ∀ (M : MatrixOpData) (k : Nat),
        CombineOpsAux matIface 5 [M] 0 k = ([M], k) := fun M k => rfl
    rw [s1, hcw1]
    rw [show ([(diagMat u).compose (diagMat v)] ++ [diagMat w] : List MatrixOpData) =
      [(diagMat u).compose (diagMat v), diagMat w] from rfl]
    rw [s2, hcw2]
    rw [show ([((diagMat u).compose (diagMat v)).compose (diagMat w)] ++ []
        : List MatrixOpData) =
      [((diagMat u).compose (diagMat v)).compose (diagMat w)] from rfl]
    exact s3 _ 2
  · intro i
    have e1 := compose_diag u v
    set t1 := cleanTol (diagMat (fun k => v k * u k)).m with ht1def
    set d1 : Fin 4 → ℚ := fun k => snapVal (v k * u k) t1 with hd1def
    have e2 : ((diagMat u).compose (diagMat v)).compose (diagMat w) =
        diagMat (fun k =>
          snapVal (w k * d1 k) (cleanTol (diagMat (fun k => w k * d1 k)).m)) := by
      rw [e1]
      exact compose_diag d1 w
    set t2 := cleanTol (diagMat (fun k => w k * d1 k)).m with ht2def
    set d2 : Fin 4 → ℚ := fun k => snapVal (w k * d1 k) t2 with hd2def
    have hvu : ∀ k, |v k * u k| ≤ 4 := by
      intro k
      rw [abs_mul]
      calc |v k| * |u k| ≤ 2 * 2 := mul_le_mul (hv k) (hu k) (abs_nonneg _) (by norm_num)
        _ = 4 := by norm_num
    have hmax1 : maxAbs4x4 (diagMat (fun k => v k * u k)).m ≤ 4 := by
      apply maxAbs4x4_le _ _ (by norm_num)
      intro a b
      by_cases hab : a = b
      · subst hab
        simpa [diagMat] using hvu a
      · simp [diagMat, hab]
    have ht1 : t1 ≤ 4/1000000 := by
      rw [ht1def]
      unfold cleanTol
      calc max (maxAbs4x4 (diagMat (fun k => v k * u k)).m) (1/10000) * (1/1000000) ≤
          4 * (1/1000000) :=
            mul_le_mul_of_nonneg_right (max_le hmax1 (by norm_num)) (by norm_num)
        _ = 4/1000000 := by norm_num
    have ht1pos : (0:ℚ) ≤ t1 := by
      rw [ht1def]
      exact le_of_lt (cleanTol_pos _)
    have hd1 : ∀ k, |d1 k - v k * u k| ≤ 4/1000000 := by
      intro k
      exact le_trans (snapVal_sub_le (v k * u k) t1 ht1pos) ht1
    have hd1b : ∀ k, |d1 k| ≤ 5 := by
      intro k
      have habs : |d1 k| ≤ |d1 k - v k * u k| + |v k * u k| := by
        calc |d1 k| = |(d1 k - v k * u k) + v k * u k| := by ring_nf
          _ ≤ |d1 k - v k * u k| + |v k * u k| := abs_add _ _
      calc |d1 k| ≤ 4/1000000 + 4 := le_trans habs (add_le_add (hd1 k) (hvu k))
        _ ≤ 5 := by norm_num
    have hwd1 : ∀ k, |w k * d1 k| ≤ 10 := by
      intro k
      rw [abs_mul]
      calc |w k| * |d1 k| ≤ 2 * 5 := mul_le_mul (hw k) (hd1b k) (abs_nonneg _) (by norm_num)
        _ = 10 := by norm_num
    have hmax2 : maxAbs4x4 (diagMat (fun k => w k * d1 k)).m ≤ 10 := by
      apply maxAbs4x4_le _ _ (by norm_num)
      intro a b
      by_cases hab : a = b
      · subst hab
        simpa [diagMat] using hwd1 a
      · simp [diagMat, hab]
    have ht2 : t2 ≤ 10/1000000 := by
      rw [ht2def]
      unfold cleanTol
      calc max (maxAbs4x4 (diagMat (fun k => w k * d1 k)).m) (1/10000) * (1/1000000) ≤
          10 * (1/1000000) :=
            mul_le_mul_of_nonneg_right (max_le hmax2 (by norm_num)) (by norm_num)
        _ = 10/1000000 := by norm_num
    have ht2pos : (0:ℚ) ≤ t2 := by
      rw [ht2def]
      exact le_of_lt (cleanTol_pos _)
    have hd2 : ∀ k, |d2 k - w k * d1 k| ≤ 10/1000000 := by
      intro k
      exact le_trans (snapVal_sub_le (w k * d1 k) t2 ht2pos) ht2
    have key : |d2 i - w i * (v i * u i)| ≤ 18/1000000 := by
      have e : d2 i - w i * (v i * u i) =
          (d2 i - w i * d1 i) + w i * (d1 i - v i * u i) := by ring
      calc |d2 i - w i * (v i * u i)|
          = |(d2 i - w i * d1 i) + w i * (d1 i - v i * u i)| := by rw [e]
        _ ≤ |d2 i - w i * d1 i| + |w i * (d1 i - v i * u i)| := abs_add _ _
        _ = |d2 i - w i * d1 i| + |w i| * |d1 i - v i * u i| := by rw [abs_mul]
        _ ≤ 10/1000000 + 2 * (4/1000000) :=
            add_le_add (hd2 i) (mul_le_mul (hw i) (hd1 i) (abs_nonneg _) (by norm_num))
        _ ≤ 18/1000000 := by norm_num
    rw [e2, diag_applyV, diag_applyV, diag_applyV, diag_applyV]
    show |d2 i * x i - w i * (v i * (u i * x i))| ≤ 2/100000
    have efin : d2 i * x i - w i * (v i * (u i * x i)) =
        (d2 i - w i * (v i * u i)) * x i := by ring
    rw [efin, abs_mul]
    calc |d2 i - w i * (v i * u i)| * |x i| ≤ (18/1000000) * 1 :=
        mul_le_mul key (hx i) (abs_nonneg _) (by norm_num)
      _ ≤ 2/100000 := by norm_num

/-- Helper: rounding 2 in the rationals. -/
theorem round_two_q : round ((2:ℚ)) = 2 := by
  rw [round_eq, Int.floor_eq_iff]
  constructor <;> norm_num

/-- Helper: rounding 2 + 1e-6 in the rationals. -/
theorem round_two_eps_q : round ((2:ℚ) + 1/1000000) = 2 := by
  rw [round_eq, Int.floor_eq_iff]
  constructor <;> norm_num

/-- Helper: 2 + 1e-6 snaps to 2 under any tolerance above 1e-6. -/
theorem snapVal_two_eps (T : ℚ) (hT : 1/1000000 < T) :
    snapVal ((2:ℚ) + 1/1000000) T = 2 := by
  unfold snapVal
  rw [round_two_eps_q]
  rw [if_pos]
  · norm_num
  · push_cast
    rw [show (2:ℚ) + 1/1000000 - 2 = 1/1000000 from by norm_num]
    rw [abs_of_pos (by norm_num)]
    exact hT

/-- Helper: 2 snaps to 2 under any positive tolerance. -/
theorem snapVal_two (T : ℚ) (hT : 0 < T) : snapVal ((2:ℚ)) T = 2 := by
  unfold snapVal
  rw [round_two_q]
  rw [if_pos]
  · norm_num
  · push_cast
    simpa using hT

/-- Helper: the composition of the slightly perturbed doubling scale with
the identity scale snaps exactly to the doubling scale, because the
perturbation 1e-6 lies inside the cleanUp tolerance scale * 1e-6. -/
theorem compose_diagEps_ones :
    (diagMat (fun _ => (2:ℚ) + 1/1000000)).compose (diagMat (fun _ => 1)) =
      diagMat (fun _ => (2:ℚ)) := by
  rw [compose_diag]
  simp only [one_mul]
  have hTlow : (1:ℚ)/1000000 <
      cleanTol (diagMat (fun _ : Fin 4 => (2:ℚ) + 1/1000000)).m := by
    have hm := le_maxAbs4x4 (diagMat (fun _ : Fin 4 => (2:ℚ) + 1/1000000)).m 0 0
    have hval : |(diagMat (fun _ : Fin 4 => (2:ℚ) + 1/1000000)).m 0 0| =
        2 + 1/1000000 := by
      simp [diagMat]
      norm_num
    rw [hval] at hm
    unfold cleanTol
    have h1 : maxAbs4x4 (diagMat (fun _ : Fin 4 => (2:ℚ) + 1/1000000)).m * (1/1000000) ≤
        max (maxAbs4x4 (diagMat (fun _ : Fin 4 => (2:ℚ) + 1/1000000)).m) (1/10000) *
          (1/1000000) :=
      mul_le_mul_of_nonneg_right (le_max_left _ _) (by norm_num)
    have h2 := mul_le_mul_of_nonneg_right hm (show (0:ℚ) ≤ 1/1000000 from by norm_num)
    have h3 : (1:ℚ)/1000000 < (2 + 1/1000000) * (1/1000000) := by norm_num
    linarith
  congr 1
  funext i
  exact snapVal_two_eps _ hTlow

/-- Helper: the composition of the doubling scale with the identity scale
is the doubling scale. -/
theorem compose_diag2_ones :
    (diagMat (fun _ => (2:ℚ))).compose (diagMat (fun _ => 1)) =
      diagMat (fun _ => (2:ℚ)) := by
  rw [compose_diag]
  simp only [one_mul]
  congr 1
  funext i
  exact snapVal_two _ (cleanTol_pos _)

/-- Helper: the doubling scale matrix is not an identity (its alpha
diagonal entry is 2, far from 1). -/
theorem diag2_not_identity : (diagMat (fun _ => (2:ℚ))).isIdentity = false := by
  have h2e : ¬ (|(diagMat (fun _ : Fin 4 => (2:ℚ))).m 3 3 - 1| ≤ 1/1000000) := by
    simp [diagMat]
    norm_num
  have hA : (diagMat (fun _ => (2:ℚ))).hasAlpha = true := by
    unfold MatrixOpData.hasAlpha
    rw [decide_eq_true h2e]
    simp
  unfold MatrixOpData.isIdentity
  rw [hA]
  simp

/-- C6 counterexample: the 2e-5 tolerance does not hold for every input
pixel.  Combining the scale matrices diag(2 + 1e-6), diag(1), diag(1)
snaps the product to diag(2) (cleanUp replaces 2 + 1e-6 by 2 since the
perturbation is inside scale * 1e-6), and at the pixel with components
100 the combined op differs from the sequential application by 1e-4 per
component, which exceeds 2e-5. -/
theorem c6_counterexample :
    CombineOps matIface
      [diagMat (fun _ => (2:ℚ) + 1/1000000), diagMat (fun _ => 1),
        diagMat (fun _ => 1)] =
      ([diagMat (fun _ => (2:ℚ))], 2) ∧
    2/100000 <
      |(diagMat (fun _ => (2:ℚ))).applyV (fun _ => 100) 0 -
        (diagMat (fun _ => (1:ℚ))).applyV
          ((diagMat (fun _ => (1:ℚ))).applyV
            ((diagMat (fun _ => (2:ℚ) + 1/1000000)).applyV (fun _ => 100))) 0| := by
  have h1 : ((diagMat (fun _ => (2:ℚ) + 1/1000000)).compose
      (diagMat (fun _ => 1))).isIdentity = false := by
    rw [compose_diagEps_ones]
    exact diag2_not_identity
  have h2 : (((diagMat (fun _ => (2:ℚ) + 1/1000000)).compose
      (diagMat (fun _ => 1))).compose (diagMat (fun _ => 1))).isIdentity = false := by
    rw [compose_diagEps_ones, compose_diag2_ones]
    exact diag2_not_identity
  constructor
  · have s1 : CombineOps matIface
        [diagMat (fun _ => (2:ℚ) + 1/1000000), diagMat (fun _ => 1),
          diagMat (fun _ => 1)] =
        CombineOpsAux matIface 6
          (matIface.combineWith (diagMat (fun _ => (2:ℚ) + 1/1000000))
            (diagMat (fun _ => 1)) ++ [diagMat (fun _ => 1)]) 0 1 := rfl
    have hcw1 : matIface.combineWith (diagMat (fun _ => (2:ℚ) + 1/1000000))
        (diagMat (fun _ => 1)) =
        [(diagMat (fun _ => (2:ℚ) + 1/1000000)).compose (diagMat (fun _ => 1))] := by
      show (if ((diagMat (fun _ => (2:ℚ) + 1/1000000)).compose
            (diagMat (fun _ => 1))).isIdentity then []
          else [(diagMat (fun _ => (2:ℚ) + 1/1000000)).compose
            (diagMat (fun _ => 1))]) = _
      rw [h1]
      simp
    have s2 : ∀ (M C : MatrixOpData) (k : Nat),
        CombineOpsAux matIface 6 [M, C] 0 k =
          CombineOpsAux matIface 5 (matIface.combineWith M C ++ []) 0 (k + 1) :=
      fun M C k => rfl
    have hcw2 : matIface.combineWith
        ((diagMat (fun _ => (2:ℚ) + 1/1000000)).compose (diagMat (fun _ => 1)))
        (diagMat (fun _ => 1)) =
        [((diagMat (fun _ => (2:ℚ) + 1/1000000)).compose
          (diagMat (fun _ => 1))).compose (diagMat (fun _ => 1))] := by
      show (if (((diagMat (fun _ => (2:ℚ) + 1/1000000)).compose
            (diagMat (fun _ => 1))).compose (diagMat (fun _ => 1))).isIdentity then []
          else [((diagMat (fun _ => (2:ℚ) + 1/1000000)).compose
            (diagMat (fun _ => 1))).compose (diagMat (fun _ => 1))]) = _
      rw [h2]
      simp
    have s3 : ∀ (M : MatrixOpData) (k : Nat),
        CombineOpsAux matIface 5 [M] 0 k = ([M], k) := fun M k => rfl
    rw [s1, hcw1]
    rw [show ([(diagMat (fun _ => (2:ℚ) + 1/1000000)).compose (diagMat (fun _ => 1))] ++
        [diagMat (fun _ => (1:ℚ))] : List MatrixOpData) =
      [(diagMat (fun _ => (2:ℚ) + 1/1000000)).compose (diagMat (fun _ => 1)),
        diagMat (fun _ => 1)] from rfl]
    rw [s2, hcw2]
    rw [show ([((diagMat (fun _ => (2:ℚ) + 1/1000000)).compose
        (diagMat (fun _ => 1))).compose (diagMat (fun _ => 1))] ++ []
        : List MatrixOpData) =
      [((diagMat (fun _ => (2:ℚ) + 1/1000000)).compose
        (diagMat (fun _ => 1))).compose (diagMat (fun _ => 1))] from rfl]
    rw [s3]
    rw [compose_diagEps_ones, compose_diag2_ones]
  · rw [diag_applyV, diag_applyV, diag_applyV, diag_applyV]
    show (2:ℚ)/100000 < |2 * 100 - 1 * (1 * ((2 + 1/1000000) * 100))|
    rw [show (2:ℚ) * 100 - 1 * (1 * ((2 + 1/1000000) * 100)) = -(1/10000) from by
      norm_num]
    rw [abs_neg, abs_of_pos (by norm_num)]
    norm_num

/-- C6 witness: the amended statement at u = diag(2), v = w = diag(1) and
the all-ones pixel. -/
theorem c6_witness :
    CombineOps matIface
      [diagMat (fun _ => (2:ℚ)), diagMat (fun _ => 1), diagMat (fun _ => 1)] =
      ([((diagMat (fun _ => (2:ℚ))).compose (diagMat (fun _ => 1))).compose
          (diagMat (fun _ => 1))], 2) ∧
    ∀ i : Fin 4,
      |(((diagMat (fun _ => (2:ℚ))).compose (diagMat (fun _ => 1))).compose
          (diagMat (fun _ => 1))).applyV (fun _ => 1) i -
        (diagMat (fun _ => (1:ℚ))).applyV ((diagMat (fun _ => (1:ℚ))).applyV
          ((diagMat (fun _ => (2:ℚ))).applyV (fun _ => 1))) i| ≤ 2/100000 :=
  c6_amended (fun _ => 2) (fun _ => 1) (fun _ => 1) (fun _ => 1)
    (fun i => by norm_num) (fun i => by norm_num) (fun i => by norm_num)
    (fun i => by norm_num)
    (by rw [compose_diag2_ones]; exact diag2_not_identity)
    (by rw [compose_diag2_ones, compose_diag2_ones]; exact diag2_not_identity)

end OCIO
